import Mathlib

/-!
# BluFi provisioning state machine (`main/bt/blufi_protocol.cc`)

A shallow embedding of the `BlufiProtocol` singleton: its member variables, the two
function-local statics of `HandleBlufiEvent`, and every member function.  Calls into the
ESP-IDF libraries are recorded in an effect trace; the values those calls return are
supplied by an environment record, one per operation.  Logging is omitted.

The serial status frame decoder `CarStatusMonitor::ParseFrame`
(`main/boards/common/CarStatusMonitor.cc`) is embedded first.
-/

namespace CarStatusMonitor

/-- The struct `CarStatusMonitor::Status`. -/
structure Status where
  brake_on : Bool
  seatbelt_on : Bool
  deriving DecidableEq, Repr

/-- The member function `ParseFrame`.  The pointer `data` is the memory it points into, a
byte for every index; `len` is the second argument.  The result is the decoded status
together with the indices of `data` that were read, in the order of evaluation (the
operands of `&&` are evaluated left to right, stopping at the first false one). -/
def ParseFrame (data : Nat → Fin 256) (len : Nat) : Status × List Nat :=
  let s : Status := { brake_on := false, seatbelt_on := false }
  if len ≥ 8 then
    if (data 0).val = 0xFC then
      if (data 3).val = 0x01 then
        if (data 7).val = 0x0D then
          ({ brake_on := decide ((data 4).val &&& 0x01 ≠ 0),
             seatbelt_on := decide ((data 5).val &&& 0x01 ≠ 0) }, [0, 3, 7, 4, 5])
        else (s, [0, 3, 7])
      else (s, [0, 3])
    else (s, [0])
  else (s, [])

/-- The memory a pointer to the first of the bytes `bytes` points into; what lies beyond
them is taken to be zero. -/
def memoryOf (bytes : List (Fin 256)) : Nat → Fin 256 :=
  fun i => bytes.getD i 0

end CarStatusMonitor

namespace Blufi

/-- The enum class `BlufiState` of `blufi_protocol.h`. -/
inductive BlufiState where
  | IDLE
  | ADVERTISING
  | CONNECTED
  | PROVISIONING
  | PROVISIONED
  | FAILED
  deriving DecidableEq, Repr

/-- A `std::string`: a finite sequence of bytes. -/
abbrev CppString := List (Fin 256)

/-- Identity of a callable stored in a `std::function`; `none` is the empty function. -/
abbrev Callback := Option Nat

/-- The constant `DEVICE_NAME_MAX_LEN`. -/
def DEVICE_NAME_MAX_LEN : Nat := 29

/-- The constructor's initial device name, the bytes of "Xiaozhi-BLE". -/
def DEFAULT_DEVICE_NAME : CppString :=
  [88, 105, 97, 111, 122, 104, 105, 45, 66, 76, 69]

/-- Values of `esp_bluedroid_status_t` (ESP-IDF). -/
inductive BluedroidStatus where
  | UNINITIALIZED
  | INITIALIZED
  | ENABLED
  deriving DecidableEq, Repr

/-- Values of `esp_bt_controller_status_t` (ESP-IDF). -/
inductive ControllerStatus where
  | IDLE
  | INITED
  | ENABLED
  deriving DecidableEq, Repr

/-- Library calls the class issues, in the order the trace records them. -/
inductive LibCall where
  | nvs_flash_init
  | nvs_flash_erase
  | esp_bt_controller_mem_release
  | esp_bt_controller_init
  | esp_bt_controller_enable
  | esp_bluedroid_init
  | esp_bluedroid_enable
  | esp_blufi_init
  | esp_blufi_register_callbacks
  | esp_ble_gatts_register_callback
  | esp_ble_gap_register_callback
  | esp_ble_gatts_app_register
  | esp_ble_gap_set_device_name (name : CppString)
  | esp_ble_gap_config_adv_data (set_scan_rsp : Bool)
  | esp_ble_gap_start_advertising
  | esp_ble_gap_stop_advertising
  | esp_blufi_deinit
  | esp_bluedroid_disable
  | esp_bluedroid_deinit
  | esp_bt_controller_disable
  | esp_bt_controller_deinit
  | esp_blufi_profile_init
  | esp_blufi_send_wifi_conn_report
  | vTaskDelay
  deriving DecidableEq, Repr

/-- What an operation does to the outside world, in program order. -/
inductive Effect where
  | call (c : LibCall)
  | stateChanged (cb : Nat) (s : BlufiState)
  | provisioned (cb : Nat) (ssid password : CppString)
  | addSsid (ssid password : CppString)
  | startReturned (b : Bool)
  deriving DecidableEq, Repr

/-- Answers of the ESP-IDF libraries during one operation: the `esp_err_t` each call
returns (`0` is `ESP_OK`) and the status each status query reports.  The two NVS error
codes the source compares against are declared in ESP-IDF, not in this repository, and
are carried here as parameters. -/
structure Env where
  ESP_ERR_NVS_NO_FREE_PAGES : Int
  ESP_ERR_NVS_NEW_VERSION_FOUND : Int
  nvs_flash_init : Int
  nvs_flash_erase : Int
  nvs_flash_init_second : Int
  esp_bt_controller_mem_release : Int
  esp_bt_controller_init : Int
  esp_bt_controller_enable : Int
  esp_bluedroid_init : Int
  esp_bluedroid_enable : Int
  esp_blufi_init : Int
  esp_blufi_register_callbacks : Int
  esp_ble_gatts_register_callback : Int
  esp_ble_gap_register_callback : Int
  esp_ble_gatts_app_register : Int
  esp_ble_gap_set_device_name : Int
  adv_set_device_name : Int
  config_adv_data : Int
  config_scan_rsp_data : Int
  esp_ble_gap_start_advertising : Int
  esp_blufi_profile_init : Int
  bluedroid_status_first : BluedroidStatus
  bluedroid_status_second : BluedroidStatus
  controller_status_first : ControllerStatus
  controller_status_second : ControllerStatus

/-- The member variables of `BlufiProtocol` together with the two function-local statics
`ssid` and `password` of `HandleBlufiEvent`. -/
structure World where
  state_ : BlufiState
  gatts_if_ : Nat
  conn_id_ : Nat
  device_name_ : CppString
  is_connected_ : Bool
  provisioned_callback_ : Callback
  state_changed_callback_ : Callback
  ssid : CppString
  password : CppString
  deriving DecidableEq, Repr

/-- The value `ESP_GATT_IF_NONE` (ESP-IDF: `0xff`). -/
def ESP_GATT_IF_NONE : Nat := 255

/-- The constructor `BlufiProtocol::BlufiProtocol()`, with both statics still empty. -/
def fresh : World :=
  { state_ := .IDLE
    gatts_if_ := ESP_GATT_IF_NONE
    conn_id_ := 0
    device_name_ := DEFAULT_DEVICE_NAME
    is_connected_ := false
    provisioned_callback_ := none
    state_changed_callback_ := none
    ssid := []
    password := [] }

/-- The member function `GetState`. -/
def GetState (w : World) : BlufiState := w.state_

/-- The member function `OnProvisioned`. -/
def OnProvisioned (callback : Callback) (w : World) : World :=
  { w with provisioned_callback_ := callback }

/-- The member function `OnStateChanged`. -/
def OnStateChanged (callback : Callback) (w : World) : World :=
  { w with state_changed_callback_ := callback }

/-- The idiom `if (state_changed_callback_) state_changed_callback_(state_);`. -/
def notifyState (w : World) : List Effect :=
  match w.state_changed_callback_ with
  | some cb => [.stateChanged cb w.state_]
  | none => []

/-- The idiom `if (provisioned_callback_) provisioned_callback_(ssid, password);`. -/
def notifyProvisioned (w : World) (ssid password : CppString) : List Effect :=
  match w.provisioned_callback_ with
  | some cb => [.provisioned cb ssid password]
  | none => []

/-- The member function `Stop`. -/
def Stop (env : Env) (w : World) : World × List Effect :=
  if w.state_ = .IDLE then (w, [])
  else
    let t0 : List Effect := [.call .esp_blufi_deinit, .call .esp_ble_gap_stop_advertising]
    let t1 := if env.bluedroid_status_first = .ENABLED
      then [Effect.call .esp_bluedroid_disable] else []
    let t2 := if env.bluedroid_status_second = .INITIALIZED
      then [Effect.call .esp_bluedroid_deinit] else []
    let t3 := if env.controller_status_first = .ENABLED
      then [Effect.call .esp_bt_controller_disable] else []
    let t4 := if env.controller_status_second = .INITED
      then [Effect.call .esp_bt_controller_deinit] else []
    let w1 := { w with state_ := .IDLE }
    (w1, t0 ++ t1 ++ t2 ++ t3 ++ t4 ++ notifyState w1)

/-- Whether `InitBle` takes the erase-and-retry branch after the first `nvs_flash_init`. -/
def Env.retry (env : Env) : Bool :=
  env.nvs_flash_init = env.ESP_ERR_NVS_NO_FREE_PAGES
    || env.nvs_flash_init = env.ESP_ERR_NVS_NEW_VERSION_FOUND

/-- The NVS calls `InitBle` makes before the first `ESP_ERROR_CHECK(ret)`. -/
def nvsCalls (env : Env) : List Effect :=
  if env.retry
  then [.call .nvs_flash_init, .call .nvs_flash_erase, .call .nvs_flash_init]
  else [.call .nvs_flash_init]

/-- The member function `InitBle`.  `ESP_ERROR_CHECK` aborts the program on a non-zero
code: that outcome is `none`.  Otherwise the Boolean result and the calls made. -/
def InitBle (env : Env) : Option (Bool × List Effect) :=
  if env.retry = true ∧ env.nvs_flash_erase ≠ 0 then none
  else
    let ret := if env.retry then env.nvs_flash_init_second else env.nvs_flash_init
    if ret ≠ 0 then none
    else if env.esp_bt_controller_mem_release ≠ 0 then none
    else
      let t1 := nvsCalls env ++
        [.call .esp_bt_controller_mem_release, .call .esp_bt_controller_init]
      if env.esp_bt_controller_init ≠ 0 then some (false, t1)
      else
        let t2 := t1 ++ [.call .esp_bt_controller_enable]
        if env.esp_bt_controller_enable ≠ 0 then some (false, t2)
        else
          let t3 := t2 ++ [.call .esp_bluedroid_init]
          if env.esp_bluedroid_init ≠ 0 then some (false, t3)
          else
            let t4 := t3 ++ [.call .esp_bluedroid_enable]
            if env.esp_bluedroid_enable ≠ 0 then some (false, t4)
            else
              let t5 := t4 ++ [.call .esp_blufi_init]
              if env.esp_blufi_init ≠ 0 then some (false, t5)
              else some (true, t5)

/-- The statements of `Start` that follow a successful `InitBle`: the four registrations,
setting the device name, and the transition to `ADVERTISING`. -/
def registerAndAdvertise (env : Env) (w : World) : Bool × World × List Effect :=
  let t0 : List Effect := [.call .esp_blufi_register_callbacks]
  if env.esp_blufi_register_callbacks ≠ 0 then (false, w, t0)
  else
    let t1 := t0 ++ [.call .esp_ble_gatts_register_callback]
    if env.esp_ble_gatts_register_callback ≠ 0 then (false, w, t1)
    else
      let t2 := t1 ++ [.call .esp_ble_gap_register_callback]
      if env.esp_ble_gap_register_callback ≠ 0 then (false, w, t2)
      else
        let t3 := t2 ++ [.call .esp_ble_gatts_app_register]
        if env.esp_ble_gatts_app_register ≠ 0 then (false, w, t3)
        else
          let t4 := t3 ++ [.call (.esp_ble_gap_set_device_name w.device_name_)]
          if env.esp_ble_gap_set_device_name ≠ 0 then (false, w, t4)
          else
            let w1 := { w with state_ := .ADVERTISING }
            (true, w1, t4 ++ notifyState w1)

/-- The device-name statements of `Start`: a non-empty argument replaces the stored name,
and the stored name is then cut to `DEVICE_NAME_MAX_LEN` bytes when longer. -/
def setDeviceName (device_name : CppString) (w : World) : World :=
  let w1 := if device_name ≠ [] then { w with device_name_ := device_name } else w
  if w1.device_name_.length > DEVICE_NAME_MAX_LEN
  then { w1 with device_name_ := w1.device_name_.take DEVICE_NAME_MAX_LEN }
  else w1

/-- The opening statements of `Start`: when the state is not `IDLE`, call `Stop` and
then `vTaskDelay`. -/
def stopIfRunning (env : Env) (w : World) : World × List Effect :=
  if w.state_ ≠ .IDLE then
    let r := Stop env w
    (r.1, r.2 ++ [.call .vTaskDelay])
  else (w, [])

/-- The member function `Start`.  `none` is the abort of an `ESP_ERROR_CHECK` inside
`InitBle`; otherwise the returned Boolean, the new world and the effects. -/
def Start (device_name : CppString) (env : Env) (w : World) :
    Option (Bool × World × List Effect) :=
  let r0 := stopIfRunning env w
  let w2 := setDeviceName device_name r0.1
  match InitBle env with
  | none => none
  | some (false, t1) => some (false, w2, r0.2 ++ t1)
  | some (true, t1) =>
    let r := registerAndAdvertise env w2
    some (r.1, r.2.1, r0.2 ++ t1 ++ r.2.2)

/-- The member function `StartAdvertising`. -/
def StartAdvertising (env : Env) (w : World) : List Effect :=
  let t0 : List Effect := [.call (.esp_ble_gap_set_device_name w.device_name_),
    .call (.esp_ble_gap_config_adv_data false)]
  if env.config_adv_data ≠ 0 then t0
  else
    let t1 := t0 ++ [.call (.esp_ble_gap_config_adv_data true)]
    if env.config_scan_rsp_data ≠ 0 then t1
    else t1 ++ [.call .esp_ble_gap_start_advertising]

/-- The member function `StopAdvertising`. -/
def StopAdvertising : List Effect := [.call .esp_ble_gap_stop_advertising]

/-- The member function `HandleWifiConfig`. -/
def HandleWifiConfig (ssid password : CppString) (w : World) : World × List Effect :=
  let w1 := { w with state_ := .PROVISIONING }
  let t0 := notifyState w1
  let t1 := t0 ++ [.addSsid ssid password]
  let t2 := t1 ++ notifyProvisioned w1 ssid password
  let w2 := { w1 with state_ := .PROVISIONED }
  (w2, t2 ++ notifyState w2)

/-- The events `HandleBlufiEvent` switches on, with the payload the handler reads;
`OTHER` is any event that reaches the `default` label. -/
inductive BlufiEvent where
  | INIT_FINISH
  | DEINIT_FINISH
  | BLE_CONNECT
  | BLE_DISCONNECT
  | SET_WIFI_OPMODE
  | REQ_CONNECT_TO_AP
  | REQ_DISCONNECT_FROM_AP
  | RECV_STA_SSID (ssid : CppString)
  | RECV_STA_PASSWD (passwd : CppString)
  | GET_WIFI_STATUS
  | RECV_CUSTOM_DATA (data : CppString)
  | RECV_USERNAME
  | RECV_CA_CERT
  | RECV_CLIENT_CERT
  | RECV_SERVER_CERT
  | RECV_CLIENT_PRIV_KEY
  | RECV_SERVER_PRIV_KEY
  | REPORT_ERROR
  | OTHER
  deriving DecidableEq, Repr

/-- The member function `HandleBlufiEvent`. -/
def HandleBlufiEvent (event : BlufiEvent) (env : Env) (w : World) : World × List Effect :=
  match event with
  | .BLE_CONNECT =>
    let w1 := { w with is_connected_ := true, state_ := .CONNECTED }
    (w1, notifyState w1 ++ StopAdvertising)
  | .BLE_DISCONNECT =>
    let w1 := { w with is_connected_ := false }
    if w1.state_ ≠ .PROVISIONED then
      let w2 := { w1 with state_ := .ADVERTISING }
      (w2, notifyState w2 ++ StartAdvertising env w2)
    else (w1, [])
  | .RECV_STA_SSID ssid => ({ w with ssid := ssid }, [])
  | .RECV_STA_PASSWD passwd =>
    let w1 := { w with password := passwd }
    if w1.ssid ≠ [] then HandleWifiConfig w1.ssid w1.password w1
    else (w1, [])
  | .GET_WIFI_STATUS => (w, [.call .esp_blufi_send_wifi_conn_report])
  | _ => (w, [])

/-- The events `HandleGapEvent` switches on; every branch only logs. -/
inductive GapEvent where
  | ADV_DATA_SET_COMPLETE
  | SCAN_RSP_DATA_SET_COMPLETE
  | ADV_START_COMPLETE (success : Bool)
  | ADV_STOP_COMPLETE (success : Bool)
  | OTHER
  deriving DecidableEq, Repr

/-- The member function `HandleGapEvent`. -/
def HandleGapEvent (_event : GapEvent) (w : World) : World × List Effect := (w, [])

/-- The events `HandleGattsEvent` switches on, with the fields the handler reads. -/
inductive GattsEvent where
  | REG (status_ok : Bool) (gatts_if : Nat)
  | CONNECT (conn_id : Nat)
  | DISCONNECT
  | OTHER
  deriving DecidableEq, Repr

/-- The member function `HandleGattsEvent`. -/
def HandleGattsEvent (event : GattsEvent) (env : Env) (w : World) : World × List Effect :=
  match event with
  | .REG status_ok gatts_if =>
    if status_ok then
      let w1 := { w with gatts_if_ := gatts_if }
      let t0 : List Effect := [.call .esp_blufi_profile_init]
      if env.esp_blufi_profile_init ≠ 0 then (w1, t0)
      else (w1, t0 ++ StartAdvertising env w1)
    else (w, [])
  | .CONNECT conn_id => ({ w with conn_id_ := conn_id, is_connected_ := true }, [])
  | .DISCONNECT => ({ w with is_connected_ := false }, [])
  | .OTHER => (w, [])

/-- One call into the object from outside: a public member function or a library
callback. -/
inductive Op where
  | Start (device_name : CppString)
  | Stop
  | OnProvisioned (callback : Callback)
  | OnStateChanged (callback : Callback)
  | Blufi (event : BlufiEvent)
  | Gap (event : GapEvent)
  | Gatts (event : GattsEvent)
  deriving DecidableEq, Repr

/-- Perform one operation under the library answers `env`; the value `Start` returns is
recorded at the end of its effects.  `none` is a program abort. -/
def step (op : Op) (env : Env) (w : World) : Option (World × List Effect) :=
  match op with
  | .Start device_name =>
    match Start device_name env w with
    | none => none
    | some (b, w1, t) => some (w1, t ++ [.startReturned b])
  | .Stop => some (Stop env w)
  | .OnProvisioned cb => some (OnProvisioned cb w, [])
  | .OnStateChanged cb => some (OnStateChanged cb w, [])
  | .Blufi e => some (HandleBlufiEvent e env w)
  | .Gap e => some (HandleGapEvent e w)
  | .Gatts e => some (HandleGattsEvent e env w)

/-- Perform a sequence of operations, each with its own library answers, and collect the
effects in order. -/
def run : List (Op × Env) → World → Option (World × List Effect)
  | [], w => some (w, [])
  | (op, env) :: rest, w =>
    match step op env w with
    | none => none
    | some (w1, t1) =>
      match run rest w1 with
      | none => none
      | some (w2, t2) => some (w2, t1 ++ t2)

/-- The state-change observer invocations among the effects, in order: which callable
was invoked and with which state. -/
def stateNotifications (t : List Effect) : List (Nat × BlufiState) :=
  t.filterMap fun e =>
    match e with
    | .stateChanged cb s => some (cb, s)
    | _ => none

/-- The provisioned observer invocations among the effects, in order: which callable was
invoked and with which SSID and password. -/
def provisionedNotifications (t : List Effect) : List (Nat × CppString × CppString) :=
  t.filterMap fun e =>
    match e with
    | .provisioned cb s p => some (cb, s, p)
    | _ => none

/-- The library calls among the effects, in order. -/
def libCalls (t : List Effect) : List LibCall :=
  t.filterMap fun e =>
    match e with
    | .call c => some c
    | _ => none

/-- No `ESP_ERROR_CHECK` of `InitBle` fires: the erase (when reached), the deciding
`nvs_flash_init` and the memory release all return `ESP_OK`. -/
def Env.noAbort (env : Env) : Prop :=
  (env.retry = true → env.nvs_flash_erase = 0) ∧
  (if env.retry then env.nvs_flash_init_second else env.nvs_flash_init) = 0 ∧
  env.esp_bt_controller_mem_release = 0

/-- The codes `InitBle` tests with `if (ret)` are all `ESP_OK`. -/
def Env.initOk (env : Env) : Prop :=
  env.esp_bt_controller_init = 0 ∧
  env.esp_bt_controller_enable = 0 ∧ env.esp_bluedroid_init = 0 ∧
  env.esp_bluedroid_enable = 0 ∧ env.esp_blufi_init = 0

/-- The codes `Start` itself tests with `if (ret)` are all `ESP_OK`. -/
def Env.registerOk (env : Env) : Prop :=
  env.esp_blufi_register_callbacks = 0 ∧ env.esp_ble_gatts_register_callback = 0 ∧
  env.esp_ble_gap_register_callback = 0 ∧ env.esp_ble_gatts_app_register = 0 ∧
  env.esp_ble_gap_set_device_name = 0

/-- Every `esp_err_t` that `InitBle` and `Start` test with `if (ret)` is `ESP_OK`. -/
def Env.checkedOk (env : Env) : Prop := env.initOk ∧ env.registerOk

/-- Transport initialisation succeeds: nothing aborts and every tested code is `ESP_OK`. -/
def Env.startOk (env : Env) : Prop := env.noAbort ∧ env.checkedOk

instance (env : Env) : Decidable env.noAbort := by
  unfold Env.noAbort; infer_instance

instance (env : Env) : Decidable env.initOk := by
  unfold Env.initOk; infer_instance

instance (env : Env) : Decidable env.registerOk := by
  unfold Env.registerOk; infer_instance

instance (env : Env) : Decidable env.checkedOk := by
  unfold Env.checkedOk; infer_instance

instance (env : Env) : Decidable env.startOk := by
  unfold Env.startOk; infer_instance

/-- What a run leaves to be seen: the final state, the state-change observer
invocations and the provisioned observer invocations. -/
def observe (r : Option (World × List Effect)) :
    Option (BlufiState × List (Nat × BlufiState) × List (Nat × CppString × CppString)) :=
  r.map fun x => (GetState x.1, stateNotifications x.2, provisionedNotifications x.2)

/-- Library answers in which every call returns `ESP_OK` and the Bluetooth stack reports
itself enabled, then initialised, at the successive status queries of `Stop`.  The two
NVS codes are those of ESP-IDF (`0x110d`, `0x1110`). -/
def okEnv : Env :=
  { ESP_ERR_NVS_NO_FREE_PAGES := 4365
    ESP_ERR_NVS_NEW_VERSION_FOUND := 4368
    nvs_flash_init := 0
    nvs_flash_erase := 0
    nvs_flash_init_second := 0
    esp_bt_controller_mem_release := 0
    esp_bt_controller_init := 0
    esp_bt_controller_enable := 0
    esp_bluedroid_init := 0
    esp_bluedroid_enable := 0
    esp_blufi_init := 0
    esp_blufi_register_callbacks := 0
    esp_ble_gatts_register_callback := 0
    esp_ble_gap_register_callback := 0
    esp_ble_gatts_app_register := 0
    esp_ble_gap_set_device_name := 0
    adv_set_device_name := 0
    config_adv_data := 0
    config_scan_rsp_data := 0
    esp_ble_gap_start_advertising := 0
    esp_blufi_profile_init := 0
    bluedroid_status_first := .ENABLED
    bluedroid_status_second := .INITIALIZED
    controller_status_first := .ENABLED
    controller_status_second := .INITED }

/-- The values returned by the calls of `Start` among the effects, in order. -/
def startResults (t : List Effect) : List Bool :=
  t.filterMap fun e =>
    match e with
    | .startReturned b => some b
    | _ => none

/-- Library answers as in `okEnv`, except that `esp_bt_controller_init` fails with
`ESP_FAIL`. -/
def controllerFailEnv : Env := { okEnv with esp_bt_controller_init := -1 }

/-- A trace of library calls only. -/
def OnlyCalls (t : List Effect) : Prop := ∀ e ∈ t, ∃ c, e = Effect.call c

/-- Two worlds agree on every variable that some member function reads: the state, the
device name, both observers and the retained SSID.  (`gatts_if_`, `conn_id_`,
`is_connected_` and the static `password` are written but never read before being
overwritten.) -/
def ObsEq (a b : World) : Prop :=
  a.state_ = b.state_ ∧ a.device_name_ = b.device_name_ ∧
  a.provisioned_callback_ = b.provisioned_callback_ ∧
  a.state_changed_callback_ = b.state_changed_callback_ ∧ a.ssid = b.ssid

/-- Two outcomes of an operation look the same from outside: both abort, or both return
with the same effects and worlds that agree on every variable read. -/
def SameOutcome : Option (World × List Effect) → Option (World × List Effect) → Prop
  | none, none => True
  | some (a, t), some (b, u) => ObsEq a b ∧ t = u
  | _, _ => False

/-- The values an operation assigns to `state_`, in program order.  `Stop` assigns
`IDLE` unless the state is already `IDLE`, also when `Start` calls it; `Start` assigns
`ADVERTISING` after its last library call has succeeded; the `BLE_CONNECT` case assigns
`CONNECTED`; the `BLE_DISCONNECT` case assigns `ADVERTISING` unless the state is
`PROVISIONED`; `HandleWifiConfig`, reached from the `RECV_STA_PASSWD` case when an SSID is
retained, assigns `PROVISIONING` and then `PROVISIONED`.  No other statement of the class
assigns `state_`. -/
def stateAssignments (op : Op) (env : Env) (w : World) : List BlufiState :=
  match op with
  | .Start _ =>
    (if w.state_ ≠ .IDLE then [.IDLE] else []) ++
      (if env.checkedOk then [.ADVERTISING] else [])
  | .Stop => if w.state_ ≠ .IDLE then [.IDLE] else []
  | .Blufi .BLE_CONNECT => [.CONNECTED]
  | .Blufi .BLE_DISCONNECT => if w.state_ ≠ .PROVISIONED then [.ADVERTISING] else []
  | .Blufi (.RECV_STA_PASSWD _) =>
    if w.ssid ≠ [] then [.PROVISIONING, .PROVISIONED] else []
  | _ => []

/-! ## Basic facts about the embedding -/

theorem stateNotifications_append (a b : List Effect) :
    stateNotifications (a ++ b) = stateNotifications a ++ stateNotifications b := by
  simp [stateNotifications]

theorem provisionedNotifications_append (a b : List Effect) :
    provisionedNotifications (a ++ b)
      = provisionedNotifications a ++ provisionedNotifications b := by
  simp [provisionedNotifications]

theorem stateNotifications_nil : stateNotifications [] = [] := rfl

theorem stateNotifications_stateChanged (cb : Nat) (x : BlufiState) (t : List Effect) :
    stateNotifications (.stateChanged cb x :: t) = (cb, x) :: stateNotifications t := rfl

theorem stateNotifications_call (c : LibCall) (t : List Effect) :
    stateNotifications (.call c :: t) = stateNotifications t := rfl

theorem stateNotifications_provisioned (cb : Nat) (a b : CppString) (t : List Effect) :
    stateNotifications (.provisioned cb a b :: t) = stateNotifications t := rfl

theorem stateNotifications_addSsid (a b : CppString) (t : List Effect) :
    stateNotifications (.addSsid a b :: t) = stateNotifications t := rfl

theorem stateNotifications_startReturned (b : Bool) (t : List Effect) :
    stateNotifications (.startReturned b :: t) = stateNotifications t := rfl

theorem provisionedNotifications_nil : provisionedNotifications [] = [] := rfl

theorem provisionedNotifications_stateChanged (cb : Nat) (x : BlufiState)
    (t : List Effect) :
    provisionedNotifications (.stateChanged cb x :: t) = provisionedNotifications t := rfl

theorem provisionedNotifications_call (c : LibCall) (t : List Effect) :
    provisionedNotifications (.call c :: t) = provisionedNotifications t := rfl

theorem provisionedNotifications_provisioned (cb : Nat) (a b : CppString)
    (t : List Effect) :
    provisionedNotifications (.provisioned cb a b :: t)
      = (cb, a, b) :: provisionedNotifications t := rfl

theorem provisionedNotifications_addSsid (a b : CppString) (t : List Effect) :
    provisionedNotifications (.addSsid a b :: t) = provisionedNotifications t := rfl

theorem provisionedNotifications_startReturned (b : Bool) (t : List Effect) :
    provisionedNotifications (.startReturned b :: t) = provisionedNotifications t := rfl

theorem OnlyCalls.stateNotifications {t : List Effect} (h : OnlyCalls t) :
    stateNotifications t = [] := by
  unfold Blufi.stateNotifications
  rw [List.filterMap_eq_nil_iff]
  intro e he
  obtain ⟨c, rfl⟩ := h e he
  rfl

theorem OnlyCalls.provisionedNotifications {t : List Effect} (h : OnlyCalls t) :
    provisionedNotifications t = [] := by
  unfold Blufi.provisionedNotifications
  rw [List.filterMap_eq_nil_iff]
  intro e he
  obtain ⟨c, rfl⟩ := h e he
  rfl

theorem nvsCalls_onlyCalls (env : Env) : OnlyCalls (nvsCalls env) := by
  unfold nvsCalls
  split <;> simp [OnlyCalls]

theorem OnlyCalls.append {a b : List Effect} (ha : OnlyCalls a) (hb : OnlyCalls b) :
    OnlyCalls (a ++ b) := by
  intro e he
  rcases List.mem_append.mp he with h | h
  · exact ha e h
  · exact hb e h

theorem InitBle_abort (env : Env) (h : ¬ env.noAbort) : InitBle env = none := by
  unfold Env.noAbort at h
  by_cases a0 : env.retry = true ∧ env.nvs_flash_erase ≠ 0
  · simp [InitBle, a0]
  · have a1 : env.retry = true → env.nvs_flash_erase = 0 := by
      intro hr
      by_contra hc
      exact a0 ⟨hr, hc⟩
    by_cases a2 : (if env.retry then env.nvs_flash_init_second else env.nvs_flash_init) = 0
    · have a3 : env.esp_bt_controller_mem_release ≠ 0 := fun hc => h ⟨a1, a2, hc⟩
      simp [InitBle, a0, a2, a3]
    · simp [InitBle, a0, a2]

theorem InitBle_noAbort (env : Env) (h : env.noAbort) :
    ∃ t, OnlyCalls t ∧ InitBle env = some (decide env.initOk, t) := by
  have hn := nvsCalls_onlyCalls env
  obtain ⟨a1, a2, a3⟩ := h
  have a0 : ¬ (env.retry = true ∧ env.nvs_flash_erase ≠ 0) := fun h => h.2 (a1 h.1)
  have fin : ∀ l : List Effect, OnlyCalls l → OnlyCalls (nvsCalls env ++ l) :=
    fun l hl => OnlyCalls.append hn hl
  unfold Env.initOk
  by_cases h1 : env.esp_bt_controller_init = 0
  · by_cases h2 : env.esp_bt_controller_enable = 0
    · by_cases h3 : env.esp_bluedroid_init = 0
      · by_cases h4 : env.esp_bluedroid_enable = 0
        · by_cases h5 : env.esp_blufi_init = 0
          · simp [InitBle, a0, a2, a3, h1, h2, h3, h4, h5]
            exact fin _ (by simp [OnlyCalls])
          · simp [InitBle, a0, a2, a3, h1, h2, h3, h4, h5]
            exact fin _ (by simp [OnlyCalls])
        · simp [InitBle, a0, a2, a3, h1, h2, h3, h4]
          exact fin _ (by simp [OnlyCalls])
      · simp [InitBle, a0, a2, a3, h1, h2, h3]
        exact fin _ (by simp [OnlyCalls])
    · simp [InitBle, a0, a2, a3, h1, h2]
      exact fin _ (by simp [OnlyCalls])
  · simp [InitBle, a0, a2, a3, h1]
    exact fin _ (by simp [OnlyCalls])

theorem registerAndAdvertise_eq (env : Env) (w : World) :
    ∃ t, OnlyCalls t ∧ registerAndAdvertise env w =
      if env.registerOk
      then (true, { w with state_ := .ADVERTISING },
        t ++ notifyState { w with state_ := .ADVERTISING })
      else (false, w, t) := by
  unfold Env.registerOk
  by_cases h1 : env.esp_blufi_register_callbacks = 0
  · by_cases h2 : env.esp_ble_gatts_register_callback = 0
    · by_cases h3 : env.esp_ble_gap_register_callback = 0
      · by_cases h4 : env.esp_ble_gatts_app_register = 0
        · by_cases h5 : env.esp_ble_gap_set_device_name = 0
          · refine ⟨[Effect.call .esp_blufi_register_callbacks,
      Effect.call .esp_ble_gatts_register_callback,
      Effect.call .esp_ble_gap_register_callback,
      Effect.call .esp_ble_gatts_app_register,
      Effect.call (.esp_ble_gap_set_device_name w.device_name_)], by simp [OnlyCalls], ?_⟩
            simp [registerAndAdvertise, h1, h2, h3, h4, h5]
          · refine ⟨[Effect.call .esp_blufi_register_callbacks,
      Effect.call .esp_ble_gatts_register_callback,
      Effect.call .esp_ble_gap_register_callback,
      Effect.call .esp_ble_gatts_app_register,
      Effect.call (.esp_ble_gap_set_device_name w.device_name_)], by simp [OnlyCalls], ?_⟩
            simp [registerAndAdvertise, h1, h2, h3, h4, h5]
        · refine ⟨[Effect.call .esp_blufi_register_callbacks,
      Effect.call .esp_ble_gatts_register_callback,
      Effect.call .esp_ble_gap_register_callback,
      Effect.call .esp_ble_gatts_app_register], by simp [OnlyCalls], ?_⟩
          simp [registerAndAdvertise, h1, h2, h3, h4]
      · refine ⟨[Effect.call .esp_blufi_register_callbacks,
      Effect.call .esp_ble_gatts_register_callback,
      Effect.call .esp_ble_gap_register_callback], by simp [OnlyCalls], ?_⟩
        simp [registerAndAdvertise, h1, h2, h3]
    · refine ⟨[Effect.call .esp_blufi_register_callbacks,
      Effect.call .esp_ble_gatts_register_callback], by simp [OnlyCalls], ?_⟩
      simp [registerAndAdvertise, h1, h2]
  · refine ⟨[Effect.call .esp_blufi_register_callbacks], by simp [OnlyCalls], ?_⟩
    simp [registerAndAdvertise, h1]

theorem setDeviceName_eq (n : CppString) (w : World) :
    setDeviceName n w = { w with device_name_ :=
      (if n ≠ [] then n else w.device_name_).take DEVICE_NAME_MAX_LEN } := by
  cases w
  unfold setDeviceName
  simp only []
  split_ifs with h1 h2 h3 <;> first | rfl | simp_all [List.take_of_length_le]

theorem setDeviceName_state_ (n : CppString) (w : World) :
    (setDeviceName n w).state_ = w.state_ := by
  rw [setDeviceName_eq]

theorem setDeviceName_provisioned_callback_ (n : CppString) (w : World) :
    (setDeviceName n w).provisioned_callback_ = w.provisioned_callback_ := by
  rw [setDeviceName_eq]

theorem setDeviceName_state_changed_callback_ (n : CppString) (w : World) :
    (setDeviceName n w).state_changed_callback_ = w.state_changed_callback_ := by
  rw [setDeviceName_eq]

theorem setDeviceName_ssid (n : CppString) (w : World) :
    (setDeviceName n w).ssid = w.ssid := by
  rw [setDeviceName_eq]

theorem setDeviceName_password (n : CppString) (w : World) :
    (setDeviceName n w).password = w.password := by
  rw [setDeviceName_eq]

theorem setDeviceName_device_name_ (n : CppString) (w : World) :
    (setDeviceName n w).device_name_ =
      (if n ≠ [] then n else w.device_name_).take DEVICE_NAME_MAX_LEN := by
  rw [setDeviceName_eq]

theorem Start_abort (device_name : CppString) (env : Env) (w : World)
    (h : ¬ env.noAbort) : Start device_name env w = none := by
  simp [Start, InitBle_abort env h]

theorem Start_eq (device_name : CppString) (env : Env) (w : World) (h : env.noAbort) :
    ∃ t, OnlyCalls t ∧ Start device_name env w = some (
      if env.checkedOk
      then (true, { setDeviceName device_name (stopIfRunning env w).1 with
          state_ := .ADVERTISING },
        (stopIfRunning env w).2 ++ t ++ notifyState
          { setDeviceName device_name (stopIfRunning env w).1 with state_ := .ADVERTISING })
      else (false, setDeviceName device_name (stopIfRunning env w).1,
        (stopIfRunning env w).2 ++ t)) := by
  obtain ⟨t1, h1, e1⟩ := InitBle_noAbort env h
  by_cases hi : env.initOk
  · obtain ⟨t2, h2, e2⟩ :=
      registerAndAdvertise_eq env (setDeviceName device_name (stopIfRunning env w).1)
    by_cases hr : env.registerOk
    · refine ⟨t1 ++ t2, h1.append h2, ?_⟩
      simp [Start, e1, e2, hi, hr, Env.checkedOk]
    · refine ⟨t1 ++ t2, h1.append h2, ?_⟩
      simp [Start, e1, e2, hi, hr, Env.checkedOk]
  · refine ⟨t1, h1, ?_⟩
    simp [Start, e1, hi, Env.checkedOk]

theorem stopIfRunning_idle (env : Env) (w : World) (h : w.state_ = .IDLE) :
    stopIfRunning env w = (w, []) := by
  simp [stopIfRunning, h]

theorem stopIfRunning_state (env : Env) (w : World) :
    (stopIfRunning env w).1 = { w with state_ := .IDLE } := by
  unfold stopIfRunning Stop
  by_cases h : w.state_ = .IDLE
  · simp only [h, ne_eq, not_true_eq_false, if_false]
    cases w
    simp_all
  · simp [h]

theorem StartAdvertising_onlyCalls (env : Env) (w : World) :
    OnlyCalls (StartAdvertising env w) := by
  unfold StartAdvertising
  simp only []
  split_ifs <;> simp [OnlyCalls]

theorem Stop_running (env : Env) (w : World) (h : w.state_ ≠ .IDLE) :
    ∃ t, OnlyCalls t ∧ Stop env w =
      ({ w with state_ := .IDLE }, t ++ notifyState { w with state_ := .IDLE }) := by
  refine ⟨[.call .esp_blufi_deinit, .call .esp_ble_gap_stop_advertising]
    ++ (if env.bluedroid_status_first = .ENABLED
      then [Effect.call .esp_bluedroid_disable] else [])
    ++ (if env.bluedroid_status_second = .INITIALIZED
      then [Effect.call .esp_bluedroid_deinit] else [])
    ++ (if env.controller_status_first = .ENABLED
      then [Effect.call .esp_bt_controller_disable] else [])
    ++ (if env.controller_status_second = .INITED
      then [Effect.call .esp_bt_controller_deinit] else []), ?_, ?_⟩
  · refine OnlyCalls.append (OnlyCalls.append (OnlyCalls.append (OnlyCalls.append ?_ ?_) ?_)
      ?_) ?_
    · simp [OnlyCalls]
    all_goals split_ifs <;> simp [OnlyCalls]
  · simp [Stop, h]

theorem Stop_idle (env : Env) (w : World) (h : w.state_ = .IDLE) : Stop env w = (w, []) := by
  simp [Stop, h]

theorem Start_idle (n : CppString) (env : Env) (w : World) (h : w.state_ = .IDLE)
    (hok : env.startOk) :
    ∃ t, OnlyCalls t ∧ Start n env w = some (true,
      { setDeviceName n w with state_ := .ADVERTISING },
      t ++ notifyState { setDeviceName n w with state_ := .ADVERTISING }) := by
  obtain ⟨t0, h0, hS⟩ := Start_eq n env w hok.1
  rw [stopIfRunning_idle _ _ h] at hS
  simp only [hok.2, if_true] at hS
  exact ⟨t0, h0, by simpa using hS⟩

theorem Start_running (n : CppString) (env : Env) (w : World) (h : w.state_ ≠ .IDLE)
    (hok : env.startOk) :
    ∃ t, OnlyCalls t ∧ Start n env w = some (true,
      { setDeviceName n { w with state_ := .IDLE } with state_ := .ADVERTISING },
      (Stop env w).2 ++ [.call .vTaskDelay] ++ t ++
        notifyState { setDeviceName n { w with state_ := .IDLE } with
          state_ := .ADVERTISING }) := by
  obtain ⟨t0, h0, hS⟩ := Start_eq n env w hok.1
  have hw := stopIfRunning_state env w
  have ht : (stopIfRunning env w).2 = (Stop env w).2 ++ [.call .vTaskDelay] := by
    simp [stopIfRunning, h]
  rw [hw, ht] at hS
  simp only [hok.2, if_true] at hS
  exact ⟨t0, h0, hS⟩

theorem Stop_state (env : Env) (w : World) : (Stop env w).1.state_ = .IDLE := by
  by_cases h : w.state_ = .IDLE
  · rw [Stop_idle env w h]; exact h
  · obtain ⟨t, -, hS⟩ := Stop_running env w h
    rw [hS]

/-! ## C1: the happy-path handshake -/

theorem handshake_from_idle (w0 : World) (name s p : CppString) (f g : Nat)
    (e0 e1 e2 e3 : Env) (hs : s ≠ []) (hok : e0.startOk) (hidle : w0.state_ = .IDLE)
    (hg : w0.state_changed_callback_ = some g) (hf : w0.provisioned_callback_ = some f) :
    ∃ w t,
      run [(.Start name, e0), (.Blufi .BLE_CONNECT, e1), (.Blufi (.RECV_STA_SSID s), e2),
          (.Blufi (.RECV_STA_PASSWD p), e3)] w0 = some (w, t) ∧
      stateNotifications t = [(g, .ADVERTISING), (g, .CONNECTED), (g, .PROVISIONING),
        (g, .PROVISIONED)] ∧
      provisionedNotifications t = [(f, s, p)] ∧
      GetState w = .PROVISIONED := by
  obtain ⟨t0, h0, hS⟩ := Start_eq name e0 w0 hok.1
  rw [stopIfRunning_idle _ _ hidle] at hS
  simp only [hok.2, if_true] at hS
  have hg2 : (setDeviceName name w0).state_changed_callback_ = some g := by
    rw [setDeviceName_state_changed_callback_, hg]
  have hf2 : (setDeviceName name w0).provisioned_callback_ = some f := by
    rw [setDeviceName_provisioned_callback_, hf]
  generalize setDeviceName name w0 = w2 at hS hg2 hf2
  simp only [run, step, hS, HandleBlufiEvent, HandleWifiConfig, StopAdvertising]
  refine ⟨_, _, rfl, ?_, ?_, ?_⟩
  · simp [stateNotifications_append, h0.stateNotifications, notifyState, notifyProvisioned,
      hs, hg2, hf2, stateNotifications_stateChanged, stateNotifications_startReturned,
      stateNotifications_call, stateNotifications_nil, stateNotifications_addSsid,
      stateNotifications_provisioned]
  · simp [provisionedNotifications_append, h0.provisionedNotifications, notifyState,
      notifyProvisioned, hs, hg2, hf2, provisionedNotifications_stateChanged,
      provisionedNotifications_startReturned, provisionedNotifications_call,
      provisionedNotifications_nil, provisionedNotifications_addSsid,
      provisionedNotifications_provisioned]
  · simp [hs, GetState]

/-- C1. On a freshly constructed object with both observers registered (callable `f`
for provisioning, callable `g` for state changes) and a transport whose initialisation
succeeds, the sequence `Start(name)`, `BLE_CONNECT`, `RECV_STA_SSID(s)`,
`RECV_STA_PASSWD(p)` with a non-empty `s` runs to completion, delivers exactly
`ADVERTISING, CONNECTED, PROVISIONING, PROVISIONED` to `g` in that order, invokes `f`
exactly once with `(s, p)`, and ends in state `PROVISIONED`. -/
theorem happy_path_handshake (name s p : CppString) (f g : Nat) (e0 e1 e2 e3 : Env)
    (hs : s ≠ []) (hok : e0.startOk) :
    ∃ w t,
      run [(.Start name, e0), (.Blufi .BLE_CONNECT, e1), (.Blufi (.RECV_STA_SSID s), e2),
          (.Blufi (.RECV_STA_PASSWD p), e3)]
        (OnStateChanged (some g) (OnProvisioned (some f) fresh)) = some (w, t) ∧
      stateNotifications t = [(g, .ADVERTISING), (g, .CONNECTED), (g, .PROVISIONING),
        (g, .PROVISIONED)] ∧
      provisionedNotifications t = [(f, s, p)] ∧
      GetState w = .PROVISIONED :=
  handshake_from_idle _ name s p f g e0 e1 e2 e3 hs hok rfl rfl rfl

/-- A concrete run of C1: name "AB", SSID "H", password "s". -/
theorem happy_path_handshake_witness :
    ∃ w t,
      run [(.Start [65, 66], okEnv), (.Blufi .BLE_CONNECT, okEnv),
          (.Blufi (.RECV_STA_SSID [72]), okEnv), (.Blufi (.RECV_STA_PASSWD [115]), okEnv)]
        (OnStateChanged (some 1) (OnProvisioned (some 0) fresh)) = some (w, t) ∧
      stateNotifications t = [(1, .ADVERTISING), (1, .CONNECTED), (1, .PROVISIONING),
        (1, .PROVISIONED)] ∧
      provisionedNotifications t = [(0, [72], [115])] ∧
      GetState w = .PROVISIONED :=
  happy_path_handshake [65, 66] [72] [115] 0 1 okEnv okEnv okEnv okEnv (by decide) (by decide)

/-! ## C2: order of the two credential fragments -/

/-- C2, refuted as stated.  A fresh object with observers `0` and `1` is started and
connected; its fragment buffer is empty.  Password "s" followed by SSID "H" invokes no
observer and leaves the state `CONNECTED`, whereas SSID "H" followed by password "s"
provisions. -/
theorem password_first_does_not_provision :
    observe (run [(.OnProvisioned (some 0), okEnv), (.OnStateChanged (some 1), okEnv),
        (.Start [65], okEnv), (.Blufi .BLE_CONNECT, okEnv),
        (.Blufi (.RECV_STA_PASSWD [115]), okEnv), (.Blufi (.RECV_STA_SSID [72]), okEnv)]
        fresh)
      = some (.CONNECTED, [(1, .ADVERTISING), (1, .CONNECTED)], []) ∧
    observe (run [(.OnProvisioned (some 0), okEnv), (.OnStateChanged (some 1), okEnv),
        (.Start [65], okEnv), (.Blufi .BLE_CONNECT, okEnv),
        (.Blufi (.RECV_STA_SSID [72]), okEnv), (.Blufi (.RECV_STA_PASSWD [115]), okEnv)]
        fresh)
      = some (.PROVISIONED, [(1, .ADVERTISING), (1, .CONNECTED), (1, .PROVISIONING),
          (1, .PROVISIONED)], [(0, [72], [115])]) := by
  constructor <;> rfl

/-- C2, amended.  From state `CONNECTED` with no retained SSID and observers `f`, `g`
registered, for non-empty `s` and `p`: SSID then password invokes `f` once with `(s, p)`,
delivers `PROVISIONING` then `PROVISIONED` to `g` and ends in `PROVISIONED`; password then
SSID invokes no observer, leaves the state `CONNECTED` and retains `s` and `p`. -/
theorem fragment_order (w : World) (s p : CppString) (f g : Nat) (e1 e2 : Env)
    (hs : s ≠ []) (_hp : p ≠ []) (hc : w.state_ = .CONNECTED) (hb : w.ssid = [])
    (hf : w.provisioned_callback_ = some f) (hg : w.state_changed_callback_ = some g) :
    observe (run [(.Blufi (.RECV_STA_SSID s), e1), (.Blufi (.RECV_STA_PASSWD p), e2)] w)
      = some (.PROVISIONED, [(g, .PROVISIONING), (g, .PROVISIONED)], [(f, s, p)]) ∧
    ∃ w1, run [(.Blufi (.RECV_STA_PASSWD p), e1), (.Blufi (.RECV_STA_SSID s), e2)] w
        = some (w1, []) ∧
      GetState w1 = .CONNECTED ∧ w1.ssid = s ∧ w1.password = p := by
  constructor
  · simp [observe, run, step, HandleBlufiEvent, HandleWifiConfig, hs, GetState, notifyState,
      notifyProvisioned, hf, hg, stateNotifications_stateChanged, stateNotifications_nil,
      stateNotifications_addSsid, stateNotifications_provisioned,
      provisionedNotifications_stateChanged, provisionedNotifications_nil,
      provisionedNotifications_addSsid, provisionedNotifications_provisioned]
  · simp [run, step, HandleBlufiEvent, hb, GetState, hc]

/-- A concrete instance of the amended C2: SSID "H", password "s", on the world reached
by connecting to a fresh object with observers `0` and `1`. -/
theorem fragment_order_witness :
    observe (run [(.Blufi (.RECV_STA_SSID [72]), okEnv),
        (.Blufi (.RECV_STA_PASSWD [115]), okEnv)]
        (HandleBlufiEvent .BLE_CONNECT okEnv
          (OnStateChanged (some 1) (OnProvisioned (some 0) fresh))).1)
      = some (.PROVISIONED, [(1, .PROVISIONING), (1, .PROVISIONED)], [(0, [72], [115])]) ∧
    ∃ w1, run [(.Blufi (.RECV_STA_PASSWD [115]), okEnv),
        (.Blufi (.RECV_STA_SSID [72]), okEnv)]
        (HandleBlufiEvent .BLE_CONNECT okEnv
          (OnStateChanged (some 1) (OnProvisioned (some 0) fresh))).1 = some (w1, []) ∧
      GetState w1 = .CONNECTED ∧ w1.ssid = [72] ∧ w1.password = [115] :=
  fragment_order _ [72] [115] 0 1 okEnv okEnv (by decide) (by decide) rfl rfl rfl rfl

/-! ## C3: disconnect -/

/-- C3, refuted as stated.  After a complete handshake the state is `PROVISIONED`; a
`BLE_DISCONNECT` then leaves it `PROVISIONED`, with no observer invoked and no library
call made. -/
theorem disconnect_keeps_provisioned :
    ∃ w t, run [(.OnProvisioned (some 0), okEnv), (.OnStateChanged (some 1), okEnv),
        (.Start [65], okEnv), (.Blufi .BLE_CONNECT, okEnv),
        (.Blufi (.RECV_STA_SSID [72]), okEnv), (.Blufi (.RECV_STA_PASSWD [115]), okEnv)]
        fresh = some (w, t) ∧
      GetState w = .PROVISIONED ∧
      GetState (HandleBlufiEvent .BLE_DISCONNECT okEnv w).1 = .PROVISIONED ∧
      (HandleBlufiEvent .BLE_DISCONNECT okEnv w).2 = [] :=
  ⟨_, _, rfl, rfl, rfl, rfl⟩

/-- C3, amended.  A `BLE_DISCONNECT` in state `CONNECTED` (indeed in any state other than
`PROVISIONED`) leaves the state `ADVERTISING`, invokes the registered state observer once
with `ADVERTISING` and then runs `StartAdvertising`, which issues
`esp_ble_gap_start_advertising` when both advertising-data configurations return
`ESP_OK`.  In state `PROVISIONED` the state stays `PROVISIONED` and nothing is notified
or issued. -/
theorem disconnect_resumes_unless_provisioned (w : World) (env : Env) (g : Nat)
    (hg : w.state_changed_callback_ = some g) :
    (w.state_ ≠ .PROVISIONED →
      GetState (HandleBlufiEvent .BLE_DISCONNECT env w).1 = .ADVERTISING ∧
      (HandleBlufiEvent .BLE_DISCONNECT env w).2 =
        .stateChanged g .ADVERTISING ::
          StartAdvertising env (HandleBlufiEvent .BLE_DISCONNECT env w).1 ∧
      stateNotifications (HandleBlufiEvent .BLE_DISCONNECT env w).2 = [(g, .ADVERTISING)] ∧
      (env.config_adv_data = 0 → env.config_scan_rsp_data = 0 →
        LibCall.esp_ble_gap_start_advertising ∈
          libCalls (HandleBlufiEvent .BLE_DISCONNECT env w).2)) ∧
    (w.state_ = .PROVISIONED →
      GetState (HandleBlufiEvent .BLE_DISCONNECT env w).1 = .PROVISIONED ∧
      (HandleBlufiEvent .BLE_DISCONNECT env w).2 = []) := by
  constructor
  · intro hne
    refine ⟨?_, ?_, ?_, ?_⟩
    · simp [HandleBlufiEvent, hne, GetState]
    · simp [HandleBlufiEvent, hne, notifyState, hg]
    · simp [HandleBlufiEvent, hne, notifyState, hg, stateNotifications_stateChanged,
        (StartAdvertising_onlyCalls _ _).stateNotifications]
    · intro h1 h2
      simp [HandleBlufiEvent, hne, notifyState, hg, StartAdvertising, h1, h2, libCalls]
  · intro hp
    simp [HandleBlufiEvent, hp, GetState]

/-- A concrete instance of the amended C3: the connected world of a fresh object with
state observer `1`. -/
theorem disconnect_resumes_unless_provisioned_witness :
    GetState (HandleBlufiEvent .BLE_DISCONNECT okEnv
        (HandleBlufiEvent .BLE_CONNECT okEnv (OnStateChanged (some 1) fresh)).1).1
      = .ADVERTISING ∧
    stateNotifications (HandleBlufiEvent .BLE_DISCONNECT okEnv
        (HandleBlufiEvent .BLE_CONNECT okEnv (OnStateChanged (some 1) fresh)).1).2
      = [(1, .ADVERTISING)] ∧
    LibCall.esp_ble_gap_start_advertising ∈ libCalls (HandleBlufiEvent .BLE_DISCONNECT okEnv
        (HandleBlufiEvent .BLE_CONNECT okEnv (OnStateChanged (some 1) fresh)).1).2 :=
  have h := (disconnect_resumes_unless_provisioned
    (HandleBlufiEvent .BLE_CONNECT okEnv (OnStateChanged (some 1) fresh)).1 okEnv 1 rfl).1
    (by decide)
  ⟨h.1, h.2.2.1, h.2.2.2 rfl rfl⟩

/-! ## C4: a partial fragment across a disconnect -/

/-- C4, refuted as stated.  After `Start`, `BLE_CONNECT`, SSID "H" and `BLE_DISCONNECT`
the state is `ADVERTISING` but the SSID "H" is still retained; after a new `BLE_CONNECT`,
password "s" followed by SSID "J" invokes the provisioned observer with the stale pair
("H", "s"). -/
theorem stale_ssid_survives_disconnect :
    ∃ w t, run [(.OnProvisioned (some 0), okEnv), (.OnStateChanged (some 1), okEnv),
        (.Start [65], okEnv), (.Blufi .BLE_CONNECT, okEnv),
        (.Blufi (.RECV_STA_SSID [72]), okEnv), (.Blufi .BLE_DISCONNECT, okEnv)]
        fresh = some (w, t) ∧
      GetState w = .ADVERTISING ∧ w.ssid = [72] ∧
      observe (run [(.Blufi .BLE_CONNECT, okEnv), (.Blufi (.RECV_STA_PASSWD [115]), okEnv),
        (.Blufi (.RECV_STA_SSID [74]), okEnv)] w)
        = some (.PROVISIONED, [(1, .CONNECTED), (1, .PROVISIONING), (1, .PROVISIONED)],
            [(0, [72], [115])]) :=
  ⟨_, _, rfl, rfl, rfl, rfl⟩

/-- C4, amended.  From an idle object with observers `f`, `g` and a transport whose
initialisation succeeds, for non-empty distinct `s1`, `s2`: after `Start`, `BLE_CONNECT`,
`RECV_STA_SSID(s1)`, `BLE_DISCONNECT` the state is `ADVERTISING`, no pair has been
delivered and `s1` is still retained.  After a further `BLE_CONNECT`, SSID `s2` then
password `p2` delivers exactly `(s2, p2)`; password `p2` then SSID `s2` delivers
`(s1, p2)`. -/
theorem partial_fragment_after_disconnect (w0 : World) (name s1 s2 p2 : CppString)
    (f g : Nat) (e0 e1 e2 e3 e4 e5 e6 : Env)
    (h1 : s1 ≠ []) (h2 : s2 ≠ []) (_hd : s1 ≠ s2) (hok : e0.startOk)
    (hidle : w0.state_ = .IDLE)
    (hg : w0.state_changed_callback_ = some g) (hf : w0.provisioned_callback_ = some f) :
    ∃ w t, run [(.Start name, e0), (.Blufi .BLE_CONNECT, e1),
        (.Blufi (.RECV_STA_SSID s1), e2), (.Blufi .BLE_DISCONNECT, e3)] w0 = some (w, t) ∧
      GetState w = .ADVERTISING ∧ w.ssid = s1 ∧ provisionedNotifications t = [] ∧
      observe (run [(.Blufi .BLE_CONNECT, e4), (.Blufi (.RECV_STA_SSID s2), e5),
        (.Blufi (.RECV_STA_PASSWD p2), e6)] w)
        = some (.PROVISIONED, [(g, .CONNECTED), (g, .PROVISIONING), (g, .PROVISIONED)],
            [(f, s2, p2)]) ∧
      observe (run [(.Blufi .BLE_CONNECT, e4), (.Blufi (.RECV_STA_PASSWD p2), e5),
        (.Blufi (.RECV_STA_SSID s2), e6)] w)
        = some (.PROVISIONED, [(g, .CONNECTED), (g, .PROVISIONING), (g, .PROVISIONED)],
            [(f, s1, p2)]) := by
  obtain ⟨t0, h0, hS⟩ := Start_eq name e0 w0 hok.1
  rw [stopIfRunning_idle _ _ hidle] at hS
  simp only [hok.2, if_true] at hS
  have hg2 : (setDeviceName name w0).state_changed_callback_ = some g := by
    rw [setDeviceName_state_changed_callback_, hg]
  have hf2 : (setDeviceName name w0).provisioned_callback_ = some f := by
    rw [setDeviceName_provisioned_callback_, hf]
  generalize setDeviceName name w0 = w2 at hS hg2 hf2
  simp only [run, step, hS, HandleBlufiEvent, StopAdvertising]
  refine ⟨_, _, rfl, ?_, ?_, ?_, ?_, ?_⟩
  · simp [GetState]
  · simp
  · simp [provisionedNotifications_append, h0.provisionedNotifications, notifyState, hg2,
      (StartAdvertising_onlyCalls _ _).provisionedNotifications,
      provisionedNotifications_stateChanged, provisionedNotifications_startReturned,
      provisionedNotifications_call, provisionedNotifications_nil]
  · simp [observe, HandleWifiConfig, h2, GetState, notifyState, notifyProvisioned, hg2, hf2,
      stateNotifications_stateChanged, stateNotifications_nil, stateNotifications_call,
      stateNotifications_addSsid, stateNotifications_provisioned,
      provisionedNotifications_stateChanged, provisionedNotifications_nil,
      provisionedNotifications_call,
      provisionedNotifications_addSsid, provisionedNotifications_provisioned]
  · simp [observe, HandleWifiConfig, h1, GetState, notifyState, notifyProvisioned, hg2, hf2,
      stateNotifications_stateChanged, stateNotifications_nil, stateNotifications_call,
      stateNotifications_addSsid, stateNotifications_provisioned,
      provisionedNotifications_stateChanged, provisionedNotifications_nil,
      provisionedNotifications_call,
      provisionedNotifications_addSsid, provisionedNotifications_provisioned]

/-- A concrete instance of the amended C4: name "A", `s1` = "H", `s2` = "J",
`p2` = "s". -/
theorem partial_fragment_after_disconnect_witness :
    ∃ w t, run [(.Start [65], okEnv), (.Blufi .BLE_CONNECT, okEnv),
        (.Blufi (.RECV_STA_SSID [72]), okEnv), (.Blufi .BLE_DISCONNECT, okEnv)]
        (OnStateChanged (some 1) (OnProvisioned (some 0) fresh)) = some (w, t) ∧
      GetState w = .ADVERTISING ∧ w.ssid = [72] ∧ provisionedNotifications t = [] ∧
      observe (run [(.Blufi .BLE_CONNECT, okEnv), (.Blufi (.RECV_STA_SSID [74]), okEnv),
        (.Blufi (.RECV_STA_PASSWD [115]), okEnv)] w)
        = some (.PROVISIONED, [(1, .CONNECTED), (1, .PROVISIONING), (1, .PROVISIONED)],
            [(0, [74], [115])]) ∧
      observe (run [(.Blufi .BLE_CONNECT, okEnv), (.Blufi (.RECV_STA_PASSWD [115]), okEnv),
        (.Blufi (.RECV_STA_SSID [74]), okEnv)] w)
        = some (.PROVISIONED, [(1, .CONNECTED), (1, .PROVISIONING), (1, .PROVISIONED)],
            [(0, [72], [115])]) :=
  partial_fragment_after_disconnect (OnStateChanged (some 1) (OnProvisioned (some 0) fresh))
    [65] [72] [74] [115] 0 1 okEnv okEnv okEnv okEnv okEnv okEnv okEnv
    (by decide) (by decide) (by decide) (by decide) rfl rfl rfl

/-! ## C5: what remains after a completed pair -/

/-- C5, refuted as stated.  After SSID "H" and password "s" have provisioned, both are
still retained, and a later password "t" alone provisions again with ("H", "t"). -/
theorem completed_pair_is_retained :
    ∃ w t, run [(.OnProvisioned (some 0), okEnv), (.OnStateChanged (some 1), okEnv),
        (.Start [65], okEnv), (.Blufi .BLE_CONNECT, okEnv),
        (.Blufi (.RECV_STA_SSID [72]), okEnv), (.Blufi (.RECV_STA_PASSWD [115]), okEnv)]
        fresh = some (w, t) ∧
      provisionedNotifications t = [(0, [72], [115])] ∧
      w.ssid = [72] ∧ w.password = [115] ∧
      observe (run [(.Blufi (.RECV_STA_PASSWD [116]), okEnv)] w)
        = some (.PROVISIONED, [(1, .PROVISIONING), (1, .PROVISIONED)],
            [(0, [72], [116])]) :=
  ⟨_, _, rfl, rfl, rfl, rfl, rfl⟩

/-- C5, amended.  With observers `f`, `g` registered and `s` non-empty,
`RECV_STA_SSID(s)` followed by `RECV_STA_PASSWD(p)` invokes `f` once with `(s, p)` and
leaves `s` and `p` retained; a later `RECV_STA_PASSWD(q)` with no new SSID event invokes
`f` again, with `(s, q)`, and delivers `PROVISIONING` then `PROVISIONED` to `g`. -/
theorem completed_pair_reused (w : World) (s p q : CppString) (f g : Nat) (e1 e2 e3 : Env)
    (hs : s ≠ [])
    (hf : w.provisioned_callback_ = some f) (hg : w.state_changed_callback_ = some g) :
    ∃ w1 t1, run [(.Blufi (.RECV_STA_SSID s), e1), (.Blufi (.RECV_STA_PASSWD p), e2)] w
        = some (w1, t1) ∧
      provisionedNotifications t1 = [(f, s, p)] ∧
      w1.ssid = s ∧ w1.password = p ∧
      observe (run [(.Blufi (.RECV_STA_PASSWD q), e3)] w1)
        = some (.PROVISIONED, [(g, .PROVISIONING), (g, .PROVISIONED)], [(f, s, q)]) := by
  simp only [run, step, HandleBlufiEvent]
  refine ⟨_, _, rfl, ?_, ?_, ?_, ?_⟩
  · simp [HandleWifiConfig, hs, notifyState, notifyProvisioned, hf, hg,
      provisionedNotifications_stateChanged, provisionedNotifications_nil,
      provisionedNotifications_addSsid, provisionedNotifications_provisioned]
  · simp [HandleWifiConfig, hs]
  · simp [HandleWifiConfig, hs]
  · simp [observe, HandleWifiConfig, hs, GetState, notifyState, notifyProvisioned, hf, hg,
      stateNotifications_stateChanged, stateNotifications_nil,
      stateNotifications_addSsid, stateNotifications_provisioned,
      provisionedNotifications_stateChanged, provisionedNotifications_nil,
      provisionedNotifications_addSsid, provisionedNotifications_provisioned]

/-- A concrete instance of the amended C5: `s` = "H", `p` = "s", `q` = "t" on a fresh
object with observers `0` and `1`. -/
theorem completed_pair_reused_witness :
    ∃ w1 t1, run [(.Blufi (.RECV_STA_SSID [72]), okEnv),
        (.Blufi (.RECV_STA_PASSWD [115]), okEnv)]
        (OnStateChanged (some 1) (OnProvisioned (some 0) fresh)) = some (w1, t1) ∧
      provisionedNotifications t1 = [(0, [72], [115])] ∧
      w1.ssid = [72] ∧ w1.password = [115] ∧
      observe (run [(.Blufi (.RECV_STA_PASSWD [116]), okEnv)] w1)
        = some (.PROVISIONED, [(1, .PROVISIONING), (1, .PROVISIONED)], [(0, [72], [116])]) :=
  completed_pair_reused (OnStateChanged (some 1) (OnProvisioned (some 0) fresh))
    [72] [115] [116] 0 1 okEnv okEnv okEnv (by decide) rfl rfl

/-! ## C6: what a failing `Start` leaves behind -/

/-- C6, refuted as stated.  A started and connected object is in state `CONNECTED`;
`Start` with a failing `esp_bt_controller_init` returns `false` and leaves the state
`IDLE`, not `CONNECTED`. -/
theorem failed_start_resets_to_idle :
    ∃ w t, run [(.Start [65], okEnv), (.Blufi .BLE_CONNECT, okEnv)] fresh = some (w, t) ∧
      GetState w = .CONNECTED ∧
      ∃ w1 t1, Start [65] controllerFailEnv w = some (false, w1, t1) ∧
        GetState w1 = .IDLE :=
  ⟨_, _, rfl, rfl, _, _, rfl, rfl⟩

/-- C6, amended.  For every prior state and every name: when no `ESP_ERROR_CHECK`
fires, `Start` returns, and it returns `false` exactly when one of the codes tested with
`if (ret)` is non-zero; in that case the state afterwards is `IDLE` (the prior state only
if that was `IDLE`), and otherwise the state is `ADVERTISING`.  When an
`ESP_ERROR_CHECK` fires, `Start` does not return at all. -/
theorem start_outcome (name : CppString) (env : Env) (w : World) :
    (env.noAbort →
      ∃ w1 t, Start name env w = some (decide env.checkedOk, w1, t) ∧
        GetState w1 = if env.checkedOk then .ADVERTISING else .IDLE) ∧
    (¬ env.noAbort → Start name env w = none) := by
  refine ⟨fun h => ?_, Start_abort name env w⟩
  obtain ⟨t0, -, hS⟩ := Start_eq name env w h
  by_cases hc : env.checkedOk
  · simp only [hc, if_true] at hS
    exact ⟨_, _, by simpa [hc] using hS, by simp [hc, GetState]⟩
  · simp only [hc, if_false] at hS
    refine ⟨_, _, by simpa [hc] using hS, ?_⟩
    simp [hc, GetState, setDeviceName_state_, stopIfRunning_state]

/-- A concrete instance of the amended C6: a failing `Start` on a connected object. -/
theorem start_outcome_witness :
    ∃ w1 t, Start [65] controllerFailEnv
        (HandleBlufiEvent .BLE_CONNECT okEnv fresh).1 = some (false, w1, t) ∧
      GetState w1 = .IDLE :=
  (start_outcome [65] controllerFailEnv (HandleBlufiEvent .BLE_CONNECT okEnv fresh).1).1
    (by decide)

/-! ## C7: `Stop` -/

/-- C7. After `Stop` the state is `IDLE`.  From `IDLE`, `Stop` changes nothing and has no
effect at all (no library call, no observer invocation).  From any other state the
registered state observer is invoked exactly once, with `IDLE`.  A second `Stop` right
after the first changes nothing and has no effect, so the two in sequence produce the
same world and effects as one. -/
theorem stop_reaches_idle (env env2 : Env) (w : World) :
    GetState (Stop env w).1 = .IDLE ∧
    (w.state_ = .IDLE → Stop env w = (w, [])) ∧
    (w.state_ ≠ .IDLE → ∀ g, w.state_changed_callback_ = some g →
      stateNotifications (Stop env w).2 = [(g, .IDLE)]) ∧
    Stop env2 (Stop env w).1 = ((Stop env w).1, []) ∧
    run [(.Stop, env), (.Stop, env2)] w = run [(.Stop, env)] w := by
  have hst : (Stop env w).1.state_ = .IDLE := Stop_state env w
  have h2 : Stop env2 (Stop env w).1 = ((Stop env w).1, []) := Stop_idle env2 _ hst
  refine ⟨hst, Stop_idle env w, ?_, h2, ?_⟩
  · intro hne g hg
    obtain ⟨t, ht, hS⟩ := Stop_running env w hne
    rw [hS]
    simp [stateNotifications_append, ht.stateNotifications, notifyState, hg,
      stateNotifications_stateChanged, stateNotifications_nil]
  · simp [run, step, h2]

/-- A concrete instance of C7: stopping a connected object with state observer `1`. -/
theorem stop_reaches_idle_witness :
    GetState (Stop okEnv (HandleBlufiEvent .BLE_CONNECT okEnv
      (OnStateChanged (some 1) fresh)).1).1 = .IDLE ∧
    Stop okEnv fresh = (fresh, []) ∧
    stateNotifications (Stop okEnv (HandleBlufiEvent .BLE_CONNECT okEnv
      (OnStateChanged (some 1) fresh)).1).2 = [(1, .IDLE)] :=
  ⟨(stop_reaches_idle okEnv okEnv (HandleBlufiEvent .BLE_CONNECT okEnv
      (OnStateChanged (some 1) fresh)).1).1,
    (stop_reaches_idle okEnv okEnv fresh).2.1 rfl,
    (stop_reaches_idle okEnv okEnv (HandleBlufiEvent .BLE_CONNECT okEnv
      (OnStateChanged (some 1) fresh)).1).2.2.1 (by decide) 1 rfl⟩

/-! ## C9: the stored device name -/

/-- C9. When `Start` returns (no `ESP_ERROR_CHECK` aborts), a name longer than 29 bytes
is stored as exactly its first 29 bytes, a non-empty name of at most 29 bytes is stored
unchanged, and the value returned is determined by the library answers alone, whatever
the name and its length. -/
theorem device_name_truncation (name : CppString) (env : Env) (w : World)
    (h : env.noAbort) :
    ∃ w1 t, Start name env w = some (decide env.checkedOk, w1, t) ∧
      (name.length > 29 →
        w1.device_name_ = name.take 29 ∧ w1.device_name_.length = 29) ∧
      (name ≠ [] → name.length ≤ 29 → w1.device_name_ = name) := by
  obtain ⟨t0, -, hS⟩ := Start_eq name env w h
  have hdev : ∀ w0 : World, name ≠ [] →
      (setDeviceName name w0).device_name_ = name.take 29 := by
    intro w0 hne
    rw [setDeviceName_device_name_]
    simp [hne, DEVICE_NAME_MAX_LEN]
  have hne_of_long : name.length > 29 → name ≠ [] := by
    intro hl hnil
    simp [hnil] at hl
  by_cases hc : env.checkedOk
  · simp only [hc, if_true] at hS
    refine ⟨_, _, by simpa [hc] using hS, ?_, ?_⟩
    · intro hl
      have e := hdev (stopIfRunning env w).1 (hne_of_long hl)
      have hl29 : (name.take 29).length = 29 := by simp; omega
      exact ⟨e, (congrArg List.length e).trans hl29⟩
    · intro hne hl
      exact (hdev (stopIfRunning env w).1 hne).trans (List.take_of_length_le hl)
  · simp only [hc, if_false] at hS
    refine ⟨_, _, by simpa [hc] using hS, ?_, ?_⟩
    · intro hl
      have e := hdev (stopIfRunning env w).1 (hne_of_long hl)
      have hl29 : (name.take 29).length = 29 := by simp; omega
      exact ⟨e, (congrArg List.length e).trans hl29⟩
    · intro hne hl
      exact (hdev (stopIfRunning env w).1 hne).trans (List.take_of_length_le hl)

/-- A concrete instance of C9: a 31-byte name is cut to its first 29 bytes. -/
theorem device_name_truncation_witness :
    ∃ w1 t, Start (List.replicate 30 65 ++ [66]) okEnv fresh = some (true, w1, t) ∧
      w1.device_name_ = List.replicate 29 65 ∧ w1.device_name_.length = 29 :=
  match device_name_truncation (List.replicate 30 65 ++ [66]) okEnv fresh (by decide) with
  | ⟨w1, t, h1, h2, _⟩ => ⟨w1, t, h1, h2 (by decide)⟩

/-! ## C10: `Start` on a running object -/

theorem startResults_append (a b : List Effect) :
    startResults (a ++ b) = startResults a ++ startResults b := by
  simp [startResults]

theorem OnlyCalls.startResults {t : List Effect} (h : OnlyCalls t) :
    startResults t = [] := by
  unfold Blufi.startResults
  rw [List.filterMap_eq_nil_iff]
  intro e he
  obtain ⟨c, rfl⟩ := h e he
  rfl

theorem startResults_nil : startResults [] = [] := rfl

theorem startResults_stateChanged (cb : Nat) (x : BlufiState) (t : List Effect) :
    startResults (.stateChanged cb x :: t) = startResults t := rfl

theorem startResults_call (c : LibCall) (t : List Effect) :
    startResults (.call c :: t) = startResults t := rfl

theorem startResults_startReturned (b : Bool) (t : List Effect) :
    startResults (.startReturned b :: t) = b :: startResults t := rfl

theorem Start_running_notifications (n : CppString) (env : Env) (w : World) (g : Nat)
    (hne : w.state_ ≠ .IDLE) (hok : env.startOk)
    (hg : w.state_changed_callback_ = some g) :
    ∃ t, Start n env w = some (true,
        { setDeviceName n { w with state_ := .IDLE } with state_ := .ADVERTISING }, t) ∧
      stateNotifications t = [(g, .IDLE), (g, .ADVERTISING)] ∧
      startResults t = [] := by
  obtain ⟨t1, h1, hS⟩ := Start_running n env w hne hok
  obtain ⟨t2, h2, hT⟩ := Stop_running env w hne
  refine ⟨_, hS, ?_, ?_⟩
  · rw [hT]
    simp [stateNotifications_append, h1.stateNotifications, h2.stateNotifications,
      notifyState, hg, setDeviceName_state_changed_callback_,
      stateNotifications_stateChanged, stateNotifications_nil, stateNotifications_call]
  · rw [hT]
    simp only [startResults_append, h1.startResults, h2.startResults,
      notifyState, hg, setDeviceName_state_changed_callback_, startResults_stateChanged,
      startResults_call, startResults_nil, List.append_nil]

theorem Start_idle_notifications (n : CppString) (env : Env) (w : World) (g : Nat)
    (hi : w.state_ = .IDLE) (hok : env.startOk)
    (hg : w.state_changed_callback_ = some g) :
    ∃ t, Start n env w = some (true,
        { setDeviceName n w with state_ := .ADVERTISING }, t) ∧
      stateNotifications t = [(g, .ADVERTISING)] ∧
      startResults t = [] := by
  obtain ⟨t1, h1, hS⟩ := Start_idle n env w hi hok
  refine ⟨_, hS, ?_, ?_⟩
  · simp [stateNotifications_append, h1.stateNotifications,
      notifyState, hg, setDeviceName_state_changed_callback_,
      stateNotifications_stateChanged, stateNotifications_nil]
  · simp only [startResults_append, h1.startResults,
      notifyState, hg, setDeviceName_state_changed_callback_, startResults_stateChanged,
      startResults_nil, List.append_nil]

/-- C10. On an object that is not `IDLE`, with state observer `g` and a transport whose
initialisation succeeds, `Start(n)` and `Stop()` followed by `Start(n)` end in the same
world, in state `ADVERTISING`, both with `Start` returning `true` and both delivering
`IDLE` then `ADVERTISING` to `g`.  In particular two calls of `Start` in a row on an idle
object deliver `ADVERTISING`, `IDLE`, `ADVERTISING`. -/
theorem start_while_running (w : World) (n : CppString) (env : Env) (g : Nat)
    (hne : w.state_ ≠ .IDLE) (hok : env.startOk)
    (hg : w.state_changed_callback_ = some g) :
    (∃ w1 t t2, run [(.Start n, env)] w = some (w1, t) ∧
      run [(.Stop, env), (.Start n, env)] w = some (w1, t2) ∧
      GetState w1 = .ADVERTISING ∧
      startResults t = [true] ∧ startResults t2 = [true] ∧
      stateNotifications t = [(g, .IDLE), (g, .ADVERTISING)] ∧
      stateNotifications t2 = [(g, .IDLE), (g, .ADVERTISING)]) ∧
    (∀ (w0 : World) (n0 : CppString) (e0 : Env), w0.state_ = .IDLE →
      w0.state_changed_callback_ = some g → e0.startOk →
      ∃ w2 t, run [(.Start n0, e0), (.Start n, env)] w0 = some (w2, t) ∧
        GetState w2 = .ADVERTISING ∧
        stateNotifications t = [(g, .ADVERTISING), (g, .IDLE), (g, .ADVERTISING)]) := by
  constructor
  · obtain ⟨t1, hS, hn1, hr1⟩ := Start_running_notifications n env w g hne hok hg
    obtain ⟨tS, hcS, hT⟩ := Stop_running env w hne
    obtain ⟨t3, hS3, hn3, hr3⟩ := Start_idle_notifications n env
      { w with state_ := .IDLE } g rfl hok hg
    refine ⟨_, _, _, by simp only [run, step, hS]; rfl,
      by simp only [run, step, hT, hS3]; rfl, ?_, ?_, ?_, ?_, ?_⟩
    · rfl
    · simp only [startResults_append, hr1, startResults_startReturned, startResults_nil,
        List.append_nil, List.nil_append]
    · simp only [startResults_append, hr3, hcS.startResults, notifyState, hg,
        startResults_startReturned, startResults_stateChanged, startResults_nil,
        List.append_nil, List.nil_append]
    · simp [stateNotifications_append, hn1, stateNotifications_startReturned,
        stateNotifications_nil]
    · simp [stateNotifications_append, hn3, hcS.stateNotifications, notifyState, hg,
        stateNotifications_startReturned, stateNotifications_stateChanged,
        stateNotifications_nil]
  · intro w0 n0 e0 hi hg0 hok0
    obtain ⟨t1, hS1, hn1, -⟩ := Start_idle_notifications n0 e0 w0 g hi hok0 hg0
    have hg1 : ({ setDeviceName n0 w0 with state_ := .ADVERTISING } : World
        ).state_changed_callback_ = some g := by
      simp [setDeviceName_state_changed_callback_, hg0]
    obtain ⟨t2, hS2, hn2, -⟩ := Start_running_notifications n env
      { setDeviceName n0 w0 with state_ := .ADVERTISING } g (by simp) hok hg1
    refine ⟨_, _, by simp only [run, step, hS1, hS2]; rfl, ?_, ?_⟩
    · rfl
    · simp [stateNotifications_append, hn1, hn2, stateNotifications_startReturned,
        stateNotifications_nil]

/-- A concrete instance of C10: `Start` on a connected object with state observer `1`. -/
theorem start_while_running_witness :
    ∃ w1 t t2, run [(.Start [65], okEnv)]
        (HandleBlufiEvent .BLE_CONNECT okEnv (OnStateChanged (some 1) fresh)).1
          = some (w1, t) ∧
      run [(.Stop, okEnv), (.Start [65], okEnv)]
        (HandleBlufiEvent .BLE_CONNECT okEnv (OnStateChanged (some 1) fresh)).1
          = some (w1, t2) ∧
      GetState w1 = .ADVERTISING ∧
      startResults t = [true] ∧ startResults t2 = [true] ∧
      stateNotifications t = [(1, .IDLE), (1, .ADVERTISING)] ∧
      stateNotifications t2 = [(1, .IDLE), (1, .ADVERTISING)] :=
  (start_while_running (HandleBlufiEvent .BLE_CONNECT okEnv (OnStateChanged (some 1) fresh)).1
    [65] okEnv 1 (by decide) (by decide) rfl).1

/-! ## C8: restarting after `Stop` -/

theorem ObsEq.refl (a : World) : ObsEq a a := ⟨rfl, rfl, rfl, rfl, rfl⟩

theorem Stop_congr (env : Env) (a b : World) (h : ObsEq a b) :
    ObsEq (Stop env a).1 (Stop env b).1 ∧ (Stop env a).2 = (Stop env b).2 := by
  obtain ⟨s, gi, ci, dn, ic, pc, sc, ss, pw⟩ := a
  obtain ⟨s2, gi2, ci2, dn2, ic2, pc2, sc2, ss2, pw2⟩ := b
  simp only [ObsEq] at h
  obtain ⟨rfl, rfl, rfl, rfl, rfl⟩ := h
  by_cases hi : s = .IDLE <;> simp [Stop, hi, notifyState, ObsEq]

theorem stopIfRunning_congr (env : Env) (a b : World) (h : ObsEq a b) :
    ObsEq (stopIfRunning env a).1 (stopIfRunning env b).1 ∧
      (stopIfRunning env a).2 = (stopIfRunning env b).2 := by
  obtain ⟨hw, ht⟩ := Stop_congr env a b h
  have h1 := h.1
  by_cases hi : a.state_ = .IDLE
  · have hb : b.state_ = .IDLE := h1 ▸ hi
    rw [stopIfRunning_idle env a hi, stopIfRunning_idle env b hb]
    exact ⟨h, rfl⟩
  · have hb : b.state_ ≠ .IDLE := h1 ▸ hi
    simp only [stopIfRunning, ne_eq, hi, hb, not_false_eq_true, if_true, ht]
    exact ⟨hw, trivial⟩

theorem setDeviceName_congr (n : CppString) (a b : World) (h : ObsEq a b) :
    ObsEq (setDeviceName n a) (setDeviceName n b) := by
  obtain ⟨h1, h2, h3, h4, h5⟩ := h
  rw [setDeviceName_eq, setDeviceName_eq]
  exact ⟨h1, by simp only [h2], h3, h4, h5⟩

theorem setDeviceName_congr_of_ne (n : CppString) (a b : World) (hn : n ≠ [])
    (h1 : a.state_ = b.state_) (h3 : a.provisioned_callback_ = b.provisioned_callback_)
    (h4 : a.state_changed_callback_ = b.state_changed_callback_) (h5 : a.ssid = b.ssid) :
    ObsEq (setDeviceName n a) (setDeviceName n b) := by
  rw [setDeviceName_eq, setDeviceName_eq]
  exact ⟨h1, by simp only [hn, ne_eq, not_false_eq_true, if_true], h3, h4, h5⟩

theorem registerAndAdvertise_congr (env : Env) (a b : World) (h : ObsEq a b) :
    (registerAndAdvertise env a).1 = (registerAndAdvertise env b).1 ∧
    ObsEq (registerAndAdvertise env a).2.1 (registerAndAdvertise env b).2.1 ∧
    (registerAndAdvertise env a).2.2 = (registerAndAdvertise env b).2.2 := by
  obtain ⟨s, gi, ci, dn, ic, pc, sc, ss, pw⟩ := a
  obtain ⟨s2, gi2, ci2, dn2, ic2, pc2, sc2, ss2, pw2⟩ := b
  simp only [ObsEq] at h
  obtain ⟨rfl, rfl, rfl, rfl, rfl⟩ := h
  unfold registerAndAdvertise
  simp only []
  split_ifs <;> simp [ObsEq, notifyState]

theorem Start_congr (n : CppString) (env : Env) (a b : World)
    (ht : (stopIfRunning env a).2 = (stopIfRunning env b).2)
    (hw : ObsEq (setDeviceName n (stopIfRunning env a).1)
      (setDeviceName n (stopIfRunning env b).1)) :
    SameOutcome (step (.Start n) env a) (step (.Start n) env b) := by
  obtain ⟨r1, r2, r3⟩ := registerAndAdvertise_congr env _ _ hw
  unfold step Start
  simp only [ht]
  rcases InitBle env with _ | ⟨_ | _, t1⟩
  · trivial
  · exact ⟨hw, rfl⟩
  · simp only [SameOutcome, r1, r3]
    exact ⟨r2, trivial⟩

theorem HandleBlufiEvent_congr (e : BlufiEvent) (env : Env) (a b : World) (h : ObsEq a b) :
    ObsEq (HandleBlufiEvent e env a).1 (HandleBlufiEvent e env b).1 ∧
      (HandleBlufiEvent e env a).2 = (HandleBlufiEvent e env b).2 := by
  obtain ⟨s, gi, ci, dn, ic, pc, sc, ss, pw⟩ := a
  obtain ⟨s2, gi2, ci2, dn2, ic2, pc2, sc2, ss2, pw2⟩ := b
  simp only [ObsEq] at h
  obtain ⟨rfl, rfl, rfl, rfl, rfl⟩ := h
  cases e
  case BLE_CONNECT => simp [HandleBlufiEvent, notifyState, ObsEq]
  case BLE_DISCONNECT =>
    by_cases hp : s = .PROVISIONED <;>
      simp [HandleBlufiEvent, hp, notifyState, ObsEq, StartAdvertising]
  case RECV_STA_SSID x => simp [HandleBlufiEvent, ObsEq]
  case RECV_STA_PASSWD x =>
    by_cases hs : ss = [] <;>
      simp [HandleBlufiEvent, hs, HandleWifiConfig, notifyState, notifyProvisioned, ObsEq]
  all_goals simp [HandleBlufiEvent, ObsEq]

theorem HandleGattsEvent_congr (e : GattsEvent) (env : Env) (a b : World) (h : ObsEq a b) :
    ObsEq (HandleGattsEvent e env a).1 (HandleGattsEvent e env b).1 ∧
      (HandleGattsEvent e env a).2 = (HandleGattsEvent e env b).2 := by
  obtain ⟨s, gi, ci, dn, ic, pc, sc, ss, pw⟩ := a
  obtain ⟨s2, gi2, ci2, dn2, ic2, pc2, sc2, ss2, pw2⟩ := b
  simp only [ObsEq] at h
  obtain ⟨rfl, rfl, rfl, rfl, rfl⟩ := h
  cases e
  case REG ok gi =>
    unfold HandleGattsEvent
    simp only []
    split_ifs <;> simp [ObsEq, StartAdvertising]
  all_goals simp [HandleGattsEvent, ObsEq]

theorem step_congr (op : Op) (env : Env) (a b : World) (h : ObsEq a b) :
    SameOutcome (step op env a) (step op env b) := by
  cases op
  case Start n =>
    obtain ⟨hw, ht⟩ := stopIfRunning_congr env a b h
    exact Start_congr n env a b ht (setDeviceName_congr n _ _ hw)
  case Stop => exact Stop_congr env a b h
  case OnProvisioned cb => exact ⟨⟨h.1, h.2.1, rfl, h.2.2.2.1, h.2.2.2.2⟩, rfl⟩
  case OnStateChanged cb => exact ⟨⟨h.1, h.2.1, h.2.2.1, rfl, h.2.2.2.2⟩, rfl⟩
  case Blufi e => exact HandleBlufiEvent_congr e env a b h
  case Gap e => exact ⟨h, rfl⟩
  case Gatts e => exact HandleGattsEvent_congr e env a b h

theorem run_cons (op : Op) (env : Env) (rest : List (Op × Env)) (w : World) :
    run ((op, env) :: rest) w =
      (step op env w).bind fun r => (run rest r.1).map fun q => (q.1, r.2 ++ q.2) := by
  simp only [run]
  generalize step op env w = ra
  rcases ra with _ | ⟨a1, t1⟩
  · rfl
  · simp only [Option.some_bind]
    generalize run rest a1 = qa
    rcases qa with _ | ⟨a2, t2⟩ <;> rfl

theorem run_cons_congr (rest : List (Op × Env))
    (ih : ∀ a b, ObsEq a b → (run rest a).map Prod.snd = (run rest b).map Prod.snd)
    (op : Op) (env : Env) (a b : World)
    (hs : SameOutcome (step op env a) (step op env b)) :
    (run ((op, env) :: rest) a).map Prod.snd = (run ((op, env) :: rest) b).map Prod.snd := by
  rw [run_cons, run_cons]
  generalize step op env a = ra at hs ⊢
  generalize step op env b = rb at hs ⊢
  rcases ra with _ | ⟨a1, t1⟩ <;> rcases rb with _ | ⟨b1, u1⟩ <;>
    simp only [SameOutcome] at hs
  · rfl
  · obtain ⟨hw, rfl⟩ := hs
    have key := ih a1 b1 hw
    simp only [Option.some_bind, Option.map_map]
    have := congrArg (Option.map (t1 ++ ·)) key
    simpa [Option.map_map, Function.comp_def] using this

theorem run_congr (ops : List (Op × Env)) :
    ∀ a b, ObsEq a b → (run ops a).map Prod.snd = (run ops b).map Prod.snd := by
  induction ops with
  | nil => intro a b _; rfl
  | cons x rest ih =>
    intro a b h
    obtain ⟨op, env⟩ := x
    exact run_cons_congr rest ih op env a b (step_congr op env a b h)

theorem run_append (xs ys : List (Op × Env)) :
    ∀ w, run (xs ++ ys) w =
      (run xs w).bind fun r => (run ys r.1).map fun q => (q.1, r.2 ++ q.2) := by
  induction xs with
  | nil =>
    intro w
    simp only [List.nil_append, run, Option.some_bind, List.nil_append]
    generalize run ys w = q
    rcases q with _ | ⟨w2, t2⟩ <;> rfl
  | cons x rest ih =>
    intro w
    obtain ⟨op, env⟩ := x
    rw [List.cons_append, run_cons, run_cons]
    generalize step op env w = ra
    rcases ra with _ | ⟨w1, t1⟩
    · rfl
    · simp only [Option.some_bind, ih]
      generalize run rest w1 = qa
      rcases qa with _ | ⟨w2, t2⟩
      · rfl
      · simp only [Option.some_bind, Option.map_some']
        generalize run ys w2 = qb
        rcases qb with _ | ⟨w3, t3⟩
        · rfl
        · simp [List.append_assoc]

theorem run_then_stop_idle (h : List (Op × Env)) (envS : Env) (w0 w : World)
    (t : List Effect) (hrun : run (h ++ [(.Stop, envS)]) w0 = some (w, t)) :
    w.state_ = .IDLE := by
  rw [run_append] at hrun
  generalize run h w0 = r at hrun
  rcases r with _ | ⟨w1, t1⟩
  · simp at hrun
  · simp only [Option.some_bind, run, step, Option.map_some', Option.some.injEq,
      Prod.mk.injEq] at hrun
    rw [← hrun.1]
    exact Stop_state envS w1

/-- C8, refuted as stated.  (1) After `Start("A")` and `Stop()`, a `Start` with the empty
name advertises the retained name "A", where a fresh object advertises "Xiaozhi-BLE".
(2) After an SSID "H" was received and the object stopped, `Start("B")` followed by a
password "s" invokes the provisioned observer with ("H", "s"); on a fresh object with the
same observer the same two steps invoke nothing. -/
theorem restart_differs_from_fresh :
    (∃ w t w1 t1 w2 t2,
      run [(.Start [65], okEnv), (.Stop, okEnv)] fresh = some (w, t) ∧
      run [(.Start [], okEnv)] w = some (w1, t1) ∧
      run [(.Start [], okEnv)] fresh = some (w2, t2) ∧
      LibCall.esp_ble_gap_set_device_name [65] ∈ libCalls t1 ∧
      LibCall.esp_ble_gap_set_device_name DEFAULT_DEVICE_NAME ∈ libCalls t2 ∧
      libCalls t1 ≠ libCalls t2) ∧
    (∃ w t,
      run [(.OnProvisioned (some 0), okEnv), (.Start [65], okEnv),
        (.Blufi .BLE_CONNECT, okEnv), (.Blufi (.RECV_STA_SSID [72]), okEnv),
        (.Stop, okEnv)] fresh = some (w, t) ∧
      observe (run [(.Start [66], okEnv), (.Blufi (.RECV_STA_PASSWD [115]), okEnv)] w)
        = some (.PROVISIONED, [], [(0, [72], [115])]) ∧
      observe (run [(.Start [66], okEnv), (.Blufi (.RECV_STA_PASSWD [115]), okEnv)]
          (OnProvisioned (some 0) fresh))
        = some (.ADVERTISING, [], [])) :=
  ⟨⟨_, _, _, _, _, _, rfl, rfl, rfl, by decide, by decide, by decide⟩,
    ⟨_, _, rfl, rfl, rfl⟩⟩

/-- C8, amended.  Let a history followed by `Stop()` leave no SSID retained, and let `n`
be non-empty.  Then `Start(n)` followed by any further operations produces exactly the
same effects (library calls with their arguments, values returned by `Start`, observer
invocations with their arguments) as on a freshly constructed object on which the same
two observers are registered; in particular both runs abort or neither does. -/
theorem restart_like_fresh (h : List (Op × Env)) (envS e : Env) (n : CppString)
    (ops : List (Op × Env)) (w : World) (t : List Effect)
    (hrun : run (h ++ [(.Stop, envS)]) fresh = some (w, t))
    (hn : n ≠ []) (hssid : w.ssid = []) :
    (run ((.Start n, e) :: ops) w).map Prod.snd =
      (run ((.Start n, e) :: ops)
        (OnStateChanged w.state_changed_callback_
          (OnProvisioned w.provisioned_callback_ fresh))).map Prod.snd := by
  have hidle : w.state_ = .IDLE := run_then_stop_idle h envS fresh w t hrun
  have hidle2 : (OnStateChanged w.state_changed_callback_
      (OnProvisioned w.provisioned_callback_ fresh)).state_ = .IDLE := rfl
  refine run_cons_congr ops (run_congr ops) (.Start n) e _ _ ?_
  refine Start_congr n e _ _ ?_ ?_
  · rw [stopIfRunning_idle e w hidle, stopIfRunning_idle e _ hidle2]
  · rw [stopIfRunning_idle e w hidle, stopIfRunning_idle e _ hidle2]
    exact setDeviceName_congr_of_ne n _ _ hn (hidle.trans hidle2.symm) rfl rfl hssid

/-- A concrete instance of the amended C8: history `OnStateChanged(1)`, `Start("A")`,
`BLE_CONNECT`; then `Stop`, `Start("B")`, `BLE_CONNECT`, password "s". -/
theorem restart_like_fresh_witness :
    ∃ w t, run ([(.OnStateChanged (some 1), okEnv), (.Start [65], okEnv),
        (.Blufi .BLE_CONNECT, okEnv)] ++ [(.Stop, okEnv)]) fresh = some (w, t) ∧
      w.ssid = [] ∧
      (run ((.Start [66], okEnv) ::
          [(.Blufi .BLE_CONNECT, okEnv), (.Blufi (.RECV_STA_PASSWD [115]), okEnv)]) w).map
        Prod.snd =
      (run ((.Start [66], okEnv) ::
          [(.Blufi .BLE_CONNECT, okEnv), (.Blufi (.RECV_STA_PASSWD [115]), okEnv)])
        (OnStateChanged w.state_changed_callback_
          (OnProvisioned w.provisioned_callback_ fresh))).map Prod.snd :=
  ⟨_, _, rfl, rfl, restart_like_fresh [(.OnStateChanged (some 1), okEnv),
    (.Start [65], okEnv), (.Blufi .BLE_CONNECT, okEnv)] okEnv okEnv [66]
    [(.Blufi .BLE_CONNECT, okEnv), (.Blufi (.RECV_STA_PASSWD [115]), okEnv)] _ _ rfl
    (by decide) rfl⟩

/-! ## C11: what `Stop` leaves in place -/

theorem Stop_world (env : Env) (w : World) : (Stop env w).1 = { w with state_ := .IDLE } := by
  by_cases h : w.state_ = .IDLE
  · rw [Stop_idle env w h]
    cases w
    simp_all
  · obtain ⟨t, -, hS⟩ := Stop_running env w h
    rw [hS]

/-- C11, refuted as stated.  After `Start`, a GATTS connect event with connection id 7,
`BLE_CONNECT` and SSID "H", a `Stop()` leaves the state `IDLE` but `is_connected_` is
still true, the connection id is still 7 and the SSID "H" is still retained. -/
theorem stop_keeps_session_data :
    ∃ w t, run [(.Start [65], okEnv), (.Gatts (.CONNECT 7), okEnv),
        (.Blufi .BLE_CONNECT, okEnv), (.Blufi (.RECV_STA_SSID [72]), okEnv),
        (.Stop, okEnv)] fresh = some (w, t) ∧
      GetState w = .IDLE ∧ w.is_connected_ = true ∧ w.conn_id_ = 7 ∧ w.ssid = [72] :=
  ⟨_, _, rfl, rfl, rfl, rfl, rfl⟩

/-- C11, amended.  `Stop()` changes no variable other than `state_`, which becomes
`IDLE`: `is_connected_`, the connection id, the retained SSID and the retained password
are after `Stop()` what they were before it. -/
theorem stop_changes_only_state (env : Env) (w : World) :
    (Stop env w).1 = { w with state_ := .IDLE } ∧
    (Stop env w).1.is_connected_ = w.is_connected_ ∧
    (Stop env w).1.conn_id_ = w.conn_id_ ∧
    (Stop env w).1.ssid = w.ssid ∧
    (Stop env w).1.password = w.password := by
  have h := Stop_world env w
  refine ⟨h, ?_, ?_, ?_, ?_⟩ <;> rw [h]

/-! ## C12: the error report event -/

/-- C12, refuted as stated.  On a started and connected object with state observer `1`,
the `REPORT_ERROR` event changes nothing and has no effect: the state stays `CONNECTED`
and the observer is not invoked. -/
theorem error_report_is_ignored :
    ∃ w t, run [(.OnStateChanged (some 1), okEnv), (.Start [65], okEnv),
        (.Blufi .BLE_CONNECT, okEnv)] fresh = some (w, t) ∧
      GetState w = .CONNECTED ∧
      HandleBlufiEvent .REPORT_ERROR okEnv w = (w, []) ∧
      GetState (HandleBlufiEvent .REPORT_ERROR okEnv w).1 ≠ .FAILED :=
  ⟨_, _, rfl, rfl, rfl, by decide⟩

/-- C12, amended.  In every state the `REPORT_ERROR` event leaves the state and every
other variable unchanged and invokes no observer.  From `FAILED`, a `Start` whose
transport initialisation succeeds returns `true` and reaches `ADVERTISING`. -/
theorem error_report_changes_nothing (w : World) (env : Env) (name : CppString) :
    HandleBlufiEvent .REPORT_ERROR env w = (w, []) ∧
    (w.state_ = .FAILED → env.startOk →
      ∃ w1 t, Start name env w = some (true, w1, t) ∧ GetState w1 = .ADVERTISING) := by
  refine ⟨rfl, fun hf hok => ?_⟩
  have hne : w.state_ ≠ .IDLE := by rw [hf]; decide
  obtain ⟨t, -, hS⟩ := Start_running name env w hne hok
  exact ⟨_, _, hS, rfl⟩

/-- A concrete instance of the amended C12: a fresh object put in state `FAILED`. -/
theorem error_report_changes_nothing_witness :
    HandleBlufiEvent .REPORT_ERROR okEnv { fresh with state_ := .FAILED }
      = ({ fresh with state_ := .FAILED }, []) ∧
    ∃ w1 t, Start [65] okEnv { fresh with state_ := .FAILED } = some (true, w1, t) ∧
      GetState w1 = .ADVERTISING :=
  ⟨(error_report_changes_nothing { fresh with state_ := .FAILED } okEnv [65]).1,
    (error_report_changes_nothing { fresh with state_ := .FAILED } okEnv [65]).2 rfl
      (by decide)⟩

/-! ## C13: zero-length fragments -/

/-- C13, refuted as stated.  With SSID "H" retained on a connected object, a zero-length
`RECV_STA_SSID` erases the retained SSID, and a zero-length `RECV_STA_PASSWD` provisions
with ("H", ""), changing the state and invoking both observers. -/
theorem empty_fragments_are_processed :
    ∃ w t, run [(.OnProvisioned (some 0), okEnv), (.OnStateChanged (some 1), okEnv),
        (.Start [65], okEnv), (.Blufi .BLE_CONNECT, okEnv),
        (.Blufi (.RECV_STA_SSID [72]), okEnv)] fresh = some (w, t) ∧
      w.ssid = [72] ∧ GetState w = .CONNECTED ∧
      (HandleBlufiEvent (.RECV_STA_SSID []) okEnv w).1.ssid = [] ∧
      observe (some (HandleBlufiEvent (.RECV_STA_PASSWD []) okEnv w))
        = some (.PROVISIONED, [(1, .PROVISIONING), (1, .PROVISIONED)], [(0, [72], [])]) :=
  ⟨_, _, rfl, rfl, rfl, rfl, rfl⟩

/-- C13, amended.  A zero-length `RECV_STA_SSID` leaves the state unchanged and invokes no
observer, and replaces the retained SSID by the empty string.  A zero-length
`RECV_STA_PASSWD` replaces the retained password by the empty string; when no SSID is
retained it leaves the state unchanged and invokes no observer, and when an SSID is
retained it provisions with that SSID and the empty password. -/
theorem empty_fragment_handling (w : World) (env : Env) (f g : Nat)
    (hf : w.provisioned_callback_ = some f) (hg : w.state_changed_callback_ = some g) :
    HandleBlufiEvent (.RECV_STA_SSID []) env w = ({ w with ssid := [] }, []) ∧
    (w.ssid = [] →
      HandleBlufiEvent (.RECV_STA_PASSWD []) env w = ({ w with password := [] }, [])) ∧
    (w.ssid ≠ [] →
      (HandleBlufiEvent (.RECV_STA_PASSWD []) env w).1.password = [] ∧
      observe (some (HandleBlufiEvent (.RECV_STA_PASSWD []) env w))
        = some (.PROVISIONED, [(g, .PROVISIONING), (g, .PROVISIONED)],
            [(f, w.ssid, [])])) := by
  refine ⟨rfl, fun h => ?_, fun h => ⟨?_, ?_⟩⟩
  · simp [HandleBlufiEvent, h]
  · simp [HandleBlufiEvent, h, HandleWifiConfig]
  · simp [observe, HandleBlufiEvent, HandleWifiConfig, h, GetState, notifyState,
      notifyProvisioned, hf, hg, stateNotifications_stateChanged, stateNotifications_nil,
      stateNotifications_addSsid, stateNotifications_provisioned,
      provisionedNotifications_stateChanged, provisionedNotifications_nil,
      provisionedNotifications_addSsid, provisionedNotifications_provisioned]

/-- A concrete instance of the amended C13: a fresh object with observers `0` and `1` on
which SSID "H" has been received. -/
theorem empty_fragment_handling_witness :
    (HandleBlufiEvent (.RECV_STA_SSID []) okEnv
      (HandleBlufiEvent (.RECV_STA_SSID [72]) okEnv
        (OnStateChanged (some 1) (OnProvisioned (some 0) fresh))).1).1.ssid = [] ∧
    observe (some (HandleBlufiEvent (.RECV_STA_PASSWD []) okEnv
      (HandleBlufiEvent (.RECV_STA_SSID [72]) okEnv
        (OnStateChanged (some 1) (OnProvisioned (some 0) fresh))).1))
      = some (.PROVISIONED, [(1, .PROVISIONING), (1, .PROVISIONED)], [(0, [72], [])]) :=
  ⟨congrArg (fun r => r.1.ssid) (empty_fragment_handling
      (HandleBlufiEvent (.RECV_STA_SSID [72]) okEnv
        (OnStateChanged (some 1) (OnProvisioned (some 0) fresh))).1 okEnv 0 1 rfl rfl).1,
    ((empty_fragment_handling
      (HandleBlufiEvent (.RECV_STA_SSID [72]) okEnv
        (OnStateChanged (some 1) (OnProvisioned (some 0) fresh))).1 okEnv 0 1 rfl rfl).2.2
      (by decide)).2⟩

/-! ## C14: one notification per assignment of the state -/

theorem stopIfRunning_notifications (env : Env) (w : World) (g : Nat)
    (hg : w.state_changed_callback_ = some g) :
    stateNotifications (stopIfRunning env w).2 =
      if w.state_ ≠ .IDLE then [(g, .IDLE)] else [] := by
  by_cases h : w.state_ = .IDLE
  · simp [stopIfRunning_idle env w h, h, stateNotifications_nil]
  · obtain ⟨t, ht, hS⟩ := Stop_running env w h
    simp [stopIfRunning, h, hS, stateNotifications_append, ht.stateNotifications,
      notifyState, hg, stateNotifications_stateChanged, stateNotifications_call,
      stateNotifications_nil]

theorem step_state (op : Op) (env : Env) (w w1 : World) (t : List Effect)
    (hs : step op env w = some (w1, t)) :
    w1.state_ = (stateAssignments op env w).getLastD w.state_ := by
  cases op
  case Start n =>
    by_cases hab : env.noAbort
    · obtain ⟨t0, -, hS⟩ := Start_eq n env w hab
      simp only [step, hS, Option.some.injEq, Prod.mk.injEq] at hs
      rw [← hs.1]
      by_cases hc : env.checkedOk <;> by_cases hi : w.state_ = .IDLE <;>
        simp [stateAssignments, hc, hi, setDeviceName_state_, stopIfRunning_state]
    · simp [step, Start_abort n env w hab] at hs
  case Stop =>
    simp only [step, Option.some.injEq] at hs
    obtain ⟨rfl, rfl⟩ : w1 = (Stop env w).1 ∧ t = (Stop env w).2 := by
      rw [hs]; exact ⟨rfl, rfl⟩
    rw [Stop_world]
    by_cases hi : w.state_ = .IDLE <;> simp [stateAssignments, hi]
  case OnProvisioned cb =>
    simp only [step, Option.some.injEq, Prod.mk.injEq] at hs
    rw [← hs.1]; rfl
  case OnStateChanged cb =>
    simp only [step, Option.some.injEq, Prod.mk.injEq] at hs
    rw [← hs.1]; rfl
  case Blufi e =>
    simp only [step, Option.some.injEq] at hs
    obtain ⟨rfl, rfl⟩ : w1 = (HandleBlufiEvent e env w).1 ∧ t = (HandleBlufiEvent e env w).2 := by
      rw [hs]; exact ⟨rfl, rfl⟩
    cases e
    case BLE_DISCONNECT =>
      by_cases hp : w.state_ = .PROVISIONED <;>
        simp [stateAssignments, HandleBlufiEvent, hp]
    case RECV_STA_PASSWD p =>
      by_cases hz : w.ssid = [] <;>
        simp [stateAssignments, HandleBlufiEvent, HandleWifiConfig, hz]
    all_goals simp [stateAssignments, HandleBlufiEvent]
  case Gap e =>
    simp only [step, Option.some.injEq] at hs
    obtain ⟨rfl, rfl⟩ : w1 = (HandleGapEvent e w).1 ∧ t = (HandleGapEvent e w).2 := by
      rw [hs]; exact ⟨rfl, rfl⟩
    rfl
  case Gatts e =>
    simp only [step, Option.some.injEq] at hs
    obtain ⟨rfl, rfl⟩ : w1 = (HandleGattsEvent e env w).1 ∧ t = (HandleGattsEvent e env w).2 := by
      rw [hs]; exact ⟨rfl, rfl⟩
    cases e
    case REG ok gi =>
      unfold HandleGattsEvent
      simp only []
      split_ifs <;> simp [stateAssignments]
    all_goals simp [stateAssignments, HandleGattsEvent]

theorem step_notifications (op : Op) (env : Env) (w w1 : World) (t : List Effect) (g : Nat)
    (hg : w.state_changed_callback_ = some g)
    (hs : step op env w = some (w1, t)) :
    stateNotifications t = (stateAssignments op env w).map (Prod.mk g) := by
  cases op
  case Start n =>
    by_cases hab : env.noAbort
    · obtain ⟨t0, h0, hS⟩ := Start_eq n env w hab
      have hn := stopIfRunning_notifications env w g hg
      have hcb : (setDeviceName n (stopIfRunning env w).1).state_changed_callback_
          = some g := by
        rw [setDeviceName_state_changed_callback_, stopIfRunning_state]
        exact hg
      simp only [step, hS, Option.some.injEq, Prod.mk.injEq] at hs
      rw [← hs.2]
      by_cases hc : env.checkedOk <;> by_cases hi : w.state_ = .IDLE <;>
        simp [stateAssignments, hc, hi, stateNotifications_append, hn,
          h0.stateNotifications, notifyState, hcb, stateNotifications_stateChanged,
          stateNotifications_startReturned, stateNotifications_nil]
    · simp [step, Start_abort n env w hab] at hs
  case Stop =>
    simp only [step, Option.some.injEq] at hs
    obtain ⟨rfl, rfl⟩ : w1 = (Stop env w).1 ∧ t = (Stop env w).2 := by
      rw [hs]; exact ⟨rfl, rfl⟩
    by_cases hi : w.state_ = .IDLE
    · simp [stateAssignments, hi, Stop_idle env w hi, stateNotifications_nil]
    · obtain ⟨t0, h0, hS⟩ := Stop_running env w hi
      simp [stateAssignments, hi, hS, stateNotifications_append, h0.stateNotifications,
        notifyState, hg, stateNotifications_stateChanged, stateNotifications_nil]
  case OnProvisioned cb =>
    simp only [step, Option.some.injEq, Prod.mk.injEq] at hs
    rw [← hs.2]; rfl
  case OnStateChanged cb =>
    simp only [step, Option.some.injEq, Prod.mk.injEq] at hs
    rw [← hs.2]; rfl
  case Blufi e =>
    simp only [step, Option.some.injEq] at hs
    obtain ⟨rfl, rfl⟩ : w1 = (HandleBlufiEvent e env w).1 ∧ t = (HandleBlufiEvent e env w).2 := by
      rw [hs]; exact ⟨rfl, rfl⟩
    cases e
    case BLE_CONNECT =>
      simp [stateAssignments, HandleBlufiEvent, notifyState, hg, StopAdvertising,
        stateNotifications_stateChanged, stateNotifications_call, stateNotifications_nil]
    case BLE_DISCONNECT =>
      by_cases hp : w.state_ = .PROVISIONED
      · simp [stateAssignments, HandleBlufiEvent, hp, stateNotifications_nil]
      · simp [stateAssignments, HandleBlufiEvent, hp, notifyState, hg,
          stateNotifications_stateChanged,
          (StartAdvertising_onlyCalls _ _).stateNotifications]
    case RECV_STA_PASSWD p =>
      by_cases hz : w.ssid = []
      · simp [stateAssignments, HandleBlufiEvent, hz, stateNotifications_nil]
      · simp [stateAssignments, HandleBlufiEvent, HandleWifiConfig, hz, notifyState,
          notifyProvisioned, hg, stateNotifications_append,
          stateNotifications_stateChanged, stateNotifications_addSsid,
          stateNotifications_nil]
        cases w.provisioned_callback_ <;>
          simp [stateNotifications_provisioned, stateNotifications_stateChanged,
            stateNotifications_nil]
    case GET_WIFI_STATUS =>
      simp [stateAssignments, HandleBlufiEvent, stateNotifications_call,
        stateNotifications_nil]
    all_goals simp [stateAssignments, HandleBlufiEvent, stateNotifications_nil]
  case Gap e =>
    simp only [step, Option.some.injEq] at hs
    obtain ⟨rfl, rfl⟩ : w1 = (HandleGapEvent e w).1 ∧ t = (HandleGapEvent e w).2 := by
      rw [hs]; exact ⟨rfl, rfl⟩
    rfl
  case Gatts e =>
    simp only [step, Option.some.injEq] at hs
    obtain ⟨rfl, rfl⟩ : w1 = (HandleGattsEvent e env w).1 ∧ t = (HandleGattsEvent e env w).2 := by
      rw [hs]; exact ⟨rfl, rfl⟩
    cases e
    case REG ok gi =>
      unfold HandleGattsEvent
      simp only []
      split_ifs
      · simp [stateAssignments, stateNotifications_call, stateNotifications_nil]
      · simp [stateAssignments, stateNotifications_call,
          (StartAdvertising_onlyCalls _ _).stateNotifications]
      · simp [stateAssignments, stateNotifications_nil]
    all_goals simp [stateAssignments, HandleGattsEvent, stateNotifications_nil]

theorem stateAssignments_ne_failed (op : Op) (env : Env) (w : World) :
    ∀ x ∈ stateAssignments op env w, x ≠ .FAILED := by
  have key : ∀ l : List BlufiState, stateAssignments op env w = l →
      l.all (fun x => decide (x ≠ .FAILED)) = true := by
    intro l hl
    unfold stateAssignments at hl
    split at hl
    · by_cases h1 : w.state_ = .IDLE <;> by_cases h2 : env.checkedOk <;>
        simp [h1, h2] at hl <;> subst hl <;> rfl
    · by_cases h1 : w.state_ = .IDLE <;> simp [h1] at hl <;> subst hl <;> rfl
    · subst hl; rfl
    · by_cases h1 : w.state_ = .PROVISIONED <;> simp [h1] at hl <;> subst hl <;> rfl
    · by_cases h1 : w.ssid = [] <;> simp [h1] at hl <;> subst hl <;> rfl
    · subst hl; rfl
  intro x hx
  have := List.all_eq_true.mp (key _ rfl) x hx
  simpa using this

theorem getLastD_mem_or_eq {α : Type} (l : List α) (d : α) :
    l.getLastD d ∈ l ∨ l.getLastD d = d := by
  rcases List.eq_nil_or_concat l with rfl | ⟨l2, a, rfl⟩
  · right; rfl
  · left; simp

theorem run_never_failed (ops : List (Op × Env)) :
    ∀ (w w1 : World) (t : List Effect), w.state_ ≠ .FAILED → run ops w = some (w1, t) →
      w1.state_ ≠ .FAILED := by
  induction ops with
  | nil =>
    intro w w1 t hw hr
    simp only [run, Option.some.injEq, Prod.mk.injEq] at hr
    rw [← hr.1]; exact hw
  | cons x rest ih =>
    intro w w1 t hw hr
    obtain ⟨op, env⟩ := x
    rw [run_cons] at hr
    generalize hst : step op env w = r at hr
    rcases r with _ | ⟨w2, t2⟩
    · simp at hr
    · simp only [Option.some_bind, Option.map_eq_some'] at hr
      obtain ⟨⟨w3, t3⟩, hr3, heq⟩ := hr
      simp only [Prod.mk.injEq] at heq
      have h2 : w2.state_ ≠ .FAILED := by
        rw [step_state op env w w2 t2 hst]
        rcases getLastD_mem_or_eq (stateAssignments op env w) w.state_ with h | h
        · exact stateAssignments_ne_failed op env w _ h
        · rw [h]; exact hw
      rw [← heq.1]
      exact ih w2 w3 t3 h2 hr3

/-- C14. For every operation (the public member functions and the three event handlers)
that returns, on an object with state observer `g` registered: the invocations of the
observer during the operation are, in order and one for one, the values the operation
assigns to `state_`, all delivered to `g`; the state afterwards is the last value
assigned (the prior state when nothing is assigned); and when anything was delivered, the
last value delivered is the state afterwards. -/
theorem one_notification_per_assignment (op : Op) (env : Env) (w w1 : World)
    (t : List Effect) (g : Nat)
    (hg : w.state_changed_callback_ = some g)
    (hs : step op env w = some (w1, t)) :
    stateNotifications t = (stateAssignments op env w).map (Prod.mk g) ∧
    GetState w1 = (stateAssignments op env w).getLastD w.state_ ∧
    (stateNotifications t ≠ [] →
      (stateNotifications t).getLast? = some (g, GetState w1)) := by
  have h1 := step_notifications op env w w1 t g hg hs
  have h2 := step_state op env w w1 t hs
  refine ⟨h1, h2, ?_⟩
  intro hne
  rw [GetState, h2, h1]
  rw [h1] at hne
  rcases List.eq_nil_or_concat (stateAssignments op env w) with h | ⟨l, a, h⟩
  · rw [h] at hne; simp at hne
  · rw [h]; simp

/-- A concrete instance of C14: a password arriving on an object with state observer `1`
that retains SSID "H". -/
theorem one_notification_per_assignment_witness :
    stateNotifications (HandleBlufiEvent (.RECV_STA_PASSWD [115]) okEnv
        (HandleBlufiEvent (.RECV_STA_SSID [72]) okEnv (OnStateChanged (some 1) fresh)).1).2
      = [(1, .PROVISIONING), (1, .PROVISIONED)] ∧
    GetState (HandleBlufiEvent (.RECV_STA_PASSWD [115]) okEnv
        (HandleBlufiEvent (.RECV_STA_SSID [72]) okEnv (OnStateChanged (some 1) fresh)).1).1
      = .PROVISIONED :=
  have h := one_notification_per_assignment (.Blufi (.RECV_STA_PASSWD [115])) okEnv
    (HandleBlufiEvent (.RECV_STA_SSID [72]) okEnv (OnStateChanged (some 1) fresh)).1
    _ _ 1 rfl rfl
  ⟨h.1, h.2.1⟩

/-! ## C15: registering an observer -/

theorem step_callbacks (op : Op) (env : Env) (w w1 : World) (t : List Effect)
    (hs : step op env w = some (w1, t)) :
    ((∀ cb, op ≠ .OnStateChanged cb) →
      w1.state_changed_callback_ = w.state_changed_callback_) ∧
    ((∀ cb, op ≠ .OnProvisioned cb) →
      w1.provisioned_callback_ = w.provisioned_callback_) := by
  cases op
  case Start n =>
    by_cases hab : env.noAbort
    · obtain ⟨t0, -, hS⟩ := Start_eq n env w hab
      simp only [step, hS, Option.some.injEq, Prod.mk.injEq] at hs
      rw [← hs.1]
      by_cases hc : env.checkedOk <;>
        simp [hc, setDeviceName_state_changed_callback_,
          setDeviceName_provisioned_callback_, stopIfRunning_state]
    · simp [step, Start_abort n env w hab] at hs
  case Stop =>
    simp only [step, Option.some.injEq] at hs
    obtain ⟨rfl, rfl⟩ : w1 = (Stop env w).1 ∧ t = (Stop env w).2 := by
      rw [hs]; exact ⟨rfl, rfl⟩
    rw [Stop_world]
    exact ⟨fun _ => rfl, fun _ => rfl⟩
  case OnProvisioned cb =>
    simp only [step, Option.some.injEq, Prod.mk.injEq] at hs
    rw [← hs.1]
    exact ⟨fun _ => rfl, fun h => absurd rfl (h cb)⟩
  case OnStateChanged cb =>
    simp only [step, Option.some.injEq, Prod.mk.injEq] at hs
    rw [← hs.1]
    exact ⟨fun h => absurd rfl (h cb), fun _ => rfl⟩
  case Blufi e =>
    simp only [step, Option.some.injEq] at hs
    obtain ⟨rfl, rfl⟩ : w1 = (HandleBlufiEvent e env w).1 ∧ t = (HandleBlufiEvent e env w).2 := by
      rw [hs]; exact ⟨rfl, rfl⟩
    cases e
    case BLE_DISCONNECT =>
      by_cases hp : w.state_ = .PROVISIONED <;> simp [HandleBlufiEvent, hp]
    case RECV_STA_PASSWD p =>
      by_cases hz : w.ssid = [] <;> simp [HandleBlufiEvent, HandleWifiConfig, hz]
    all_goals simp [HandleBlufiEvent]
  case Gap e =>
    simp only [step, Option.some.injEq] at hs
    obtain ⟨rfl, rfl⟩ : w1 = (HandleGapEvent e w).1 ∧ t = (HandleGapEvent e w).2 := by
      rw [hs]; exact ⟨rfl, rfl⟩
    exact ⟨fun _ => rfl, fun _ => rfl⟩
  case Gatts e =>
    simp only [step, Option.some.injEq] at hs
    obtain ⟨rfl, rfl⟩ : w1 = (HandleGattsEvent e env w).1 ∧ t = (HandleGattsEvent e env w).2 := by
      rw [hs]; exact ⟨rfl, rfl⟩
    cases e
    case REG ok gi =>
      unfold HandleGattsEvent
      simp only []
      split_ifs <;> simp
    all_goals simp [HandleGattsEvent]

theorem provisionedNotifications_notifyState (w : World) :
    provisionedNotifications (notifyState w) = [] := by
  unfold notifyState
  cases w.state_changed_callback_ <;> rfl

theorem provisionedNotifications_stopIfRunning (env : Env) (w : World) :
    provisionedNotifications (stopIfRunning env w).2 = [] := by
  by_cases h : w.state_ = .IDLE
  · rw [stopIfRunning_idle env w h]; rfl
  · obtain ⟨t, ht, hS⟩ := Stop_running env w h
    simp [stopIfRunning, h, hS, provisionedNotifications_append,
      ht.provisionedNotifications, provisionedNotifications_notifyState,
      provisionedNotifications_call, provisionedNotifications_nil]

theorem step_provisionedNotifications (op : Op) (env : Env) (w w1 : World)
    (t : List Effect) (f : Nat) (hf : w.provisioned_callback_ = some f)
    (hs : step op env w = some (w1, t)) :
    ∀ n ∈ provisionedNotifications t, n.1 = f := by
  cases op
  case Start n =>
    by_cases hab : env.noAbort
    · obtain ⟨t0, h0, hS⟩ := Start_eq n env w hab
      simp only [step, hS, Option.some.injEq, Prod.mk.injEq] at hs
      rw [← hs.2]
      by_cases hc : env.checkedOk <;>
        simp [hc, provisionedNotifications_append, provisionedNotifications_stopIfRunning,
          h0.provisionedNotifications, provisionedNotifications_notifyState,
          provisionedNotifications_startReturned, provisionedNotifications_nil]
    · simp [step, Start_abort n env w hab] at hs
  case Stop =>
    simp only [step, Option.some.injEq] at hs
    obtain ⟨rfl, rfl⟩ : w1 = (Stop env w).1 ∧ t = (Stop env w).2 := by
      rw [hs]; exact ⟨rfl, rfl⟩
    by_cases hi : w.state_ = .IDLE
    · simp [Stop_idle env w hi, provisionedNotifications_nil]
    · obtain ⟨t0, h0, hS⟩ := Stop_running env w hi
      simp [hS, provisionedNotifications_append, h0.provisionedNotifications,
        provisionedNotifications_notifyState]
  case OnProvisioned cb =>
    simp only [step, Option.some.injEq, Prod.mk.injEq] at hs
    rw [← hs.2]
    simp [provisionedNotifications_nil]
  case OnStateChanged cb =>
    simp only [step, Option.some.injEq, Prod.mk.injEq] at hs
    rw [← hs.2]
    simp [provisionedNotifications_nil]
  case Blufi e =>
    simp only [step, Option.some.injEq] at hs
    obtain ⟨rfl, rfl⟩ : w1 = (HandleBlufiEvent e env w).1 ∧ t = (HandleBlufiEvent e env w).2 := by
      rw [hs]; exact ⟨rfl, rfl⟩
    cases e
    case BLE_CONNECT =>
      simp [HandleBlufiEvent, StopAdvertising, provisionedNotifications_append,
        provisionedNotifications_notifyState, provisionedNotifications_call,
        provisionedNotifications_nil]
    case BLE_DISCONNECT =>
      by_cases hp : w.state_ = .PROVISIONED
      · simp [HandleBlufiEvent, hp, provisionedNotifications_nil]
      · simp [HandleBlufiEvent, hp, provisionedNotifications_append,
          provisionedNotifications_notifyState,
          (StartAdvertising_onlyCalls _ _).provisionedNotifications]
    case RECV_STA_PASSWD p =>
      by_cases hz : w.ssid = []
      · simp [HandleBlufiEvent, hz, provisionedNotifications_nil]
      · simp [HandleBlufiEvent, HandleWifiConfig, hz, provisionedNotifications_append,
          provisionedNotifications_notifyState, notifyProvisioned, hf,
          provisionedNotifications_addSsid, provisionedNotifications_provisioned,
          provisionedNotifications_nil]
    case GET_WIFI_STATUS =>
      simp [HandleBlufiEvent, provisionedNotifications_call, provisionedNotifications_nil]
    all_goals simp [HandleBlufiEvent, provisionedNotifications_nil]
  case Gap e =>
    simp only [step, Option.some.injEq] at hs
    obtain ⟨rfl, rfl⟩ : w1 = (HandleGapEvent e w).1 ∧ t = (HandleGapEvent e w).2 := by
      rw [hs]; exact ⟨rfl, rfl⟩
    simp [HandleGapEvent, provisionedNotifications_nil]
  case Gatts e =>
    simp only [step, Option.some.injEq] at hs
    obtain ⟨rfl, rfl⟩ : w1 = (HandleGattsEvent e env w).1 ∧ t = (HandleGattsEvent e env w).2 := by
      rw [hs]; exact ⟨rfl, rfl⟩
    cases e
    case REG ok gi =>
      unfold HandleGattsEvent
      simp only []
      split_ifs
      · simp [provisionedNotifications_call, provisionedNotifications_nil]
      · simp [provisionedNotifications_call,
          (StartAdvertising_onlyCalls _ _).provisionedNotifications]
      · simp [provisionedNotifications_nil]
    all_goals simp [HandleGattsEvent, provisionedNotifications_nil]

theorem run_stateNotifications_to (ops : List (Op × Env)) :
    ∀ (w w1 : World) (t : List Effect) (g : Nat), w.state_changed_callback_ = some g →
      (∀ x ∈ ops, ∀ cb, x.1 ≠ .OnStateChanged cb) → run ops w = some (w1, t) →
      ∀ n ∈ stateNotifications t, n.1 = g := by
  induction ops with
  | nil =>
    intro w w1 t g _ _ hr
    simp only [run, Option.some.injEq, Prod.mk.injEq] at hr
    rw [← hr.2]
    simp [stateNotifications_nil]
  | cons x rest ih =>
    intro w w1 t g hg hno hr
    obtain ⟨op, env⟩ := x
    rw [run_cons] at hr
    generalize hst : step op env w = r at hr
    rcases r with _ | ⟨w2, t2⟩
    · simp at hr
    · simp only [Option.some_bind, Option.map_eq_some'] at hr
      obtain ⟨⟨w3, t3⟩, hr3, heq⟩ := hr
      simp only [Prod.mk.injEq] at heq
      have hop : ∀ cb, op ≠ .OnStateChanged cb := hno (op, env) (List.mem_cons_self _ _)
      have hg2 : w2.state_changed_callback_ = some g :=
        ((step_callbacks op env w w2 t2 hst).1 hop).trans hg
      have h1 := step_notifications op env w w2 t2 g hg hst
      have h2 := ih w2 w3 t3 g hg2 (fun y hy => hno y (List.mem_cons_of_mem _ hy)) hr3
      rw [← heq.2, stateNotifications_append, h1]
      intro n hn
      rcases List.mem_append.mp hn with h | h
      · obtain ⟨a, -, rfl⟩ := List.mem_map.mp h
        rfl
      · exact h2 n h

theorem run_provisionedNotifications_to (ops : List (Op × Env)) :
    ∀ (w w1 : World) (t : List Effect) (f : Nat), w.provisioned_callback_ = some f →
      (∀ x ∈ ops, ∀ cb, x.1 ≠ .OnProvisioned cb) → run ops w = some (w1, t) →
      ∀ n ∈ provisionedNotifications t, n.1 = f := by
  induction ops with
  | nil =>
    intro w w1 t f _ _ hr
    simp only [run, Option.some.injEq, Prod.mk.injEq] at hr
    rw [← hr.2]
    simp [provisionedNotifications_nil]
  | cons x rest ih =>
    intro w w1 t f hf hno hr
    obtain ⟨op, env⟩ := x
    rw [run_cons] at hr
    generalize hst : step op env w = r at hr
    rcases r with _ | ⟨w2, t2⟩
    · simp at hr
    · simp only [Option.some_bind, Option.map_eq_some'] at hr
      obtain ⟨⟨w3, t3⟩, hr3, heq⟩ := hr
      simp only [Prod.mk.injEq] at heq
      have hop : ∀ cb, op ≠ .OnProvisioned cb := hno (op, env) (List.mem_cons_self _ _)
      have hf2 : w2.provisioned_callback_ = some f :=
        ((step_callbacks op env w w2 t2 hst).2 hop).trans hf
      have h1 := step_provisionedNotifications op env w w2 t2 f hf hst
      have h2 := ih w2 w3 t3 f hf2 (fun y hy => hno y (List.mem_cons_of_mem _ hy)) hr3
      rw [← heq.2, provisionedNotifications_append]
      intro n hn
      rcases List.mem_append.mp hn with h | h
      · exact h1 n h
      · exact h2 n h

/-- C15. Registering `g` after `f` leaves exactly the object that registering `g` alone
leaves, for either kind of observer.  After `OnStateChanged(f)` then `OnStateChanged(g)`,
in every run without a further `OnStateChanged` each state notification goes to `g`, and
a `BLE_CONNECT` invokes `g` exactly once; after `OnProvisioned(f)` then `OnProvisioned(g)`,
in every run without a further `OnProvisioned` each completed pair goes to `g`, and a
password completing a pair invokes `g` exactly once.  Registering one kind of observer
leaves the other kind's registration and the state unchanged. -/
theorem registration_replaces (w : World) (f g : Nat) (cb : Callback) :
    OnStateChanged (some g) (OnStateChanged (some f) w) = OnStateChanged (some g) w ∧
    OnProvisioned (some g) (OnProvisioned (some f) w) = OnProvisioned (some g) w ∧
    (∀ (ops : List (Op × Env)) (w1 : World) (t : List Effect),
      (∀ x ∈ ops, ∀ c, x.1 ≠ .OnStateChanged c) →
      run ops (OnStateChanged (some g) (OnStateChanged (some f) w)) = some (w1, t) →
      ∀ n ∈ stateNotifications t, n.1 = g) ∧
    (∀ env, stateNotifications (HandleBlufiEvent .BLE_CONNECT env
        (OnStateChanged (some g) (OnStateChanged (some f) w))).2 = [(g, .CONNECTED)]) ∧
    (∀ (ops : List (Op × Env)) (w1 : World) (t : List Effect),
      (∀ x ∈ ops, ∀ c, x.1 ≠ .OnProvisioned c) →
      run ops (OnProvisioned (some g) (OnProvisioned (some f) w)) = some (w1, t) →
      ∀ n ∈ provisionedNotifications t, n.1 = g) ∧
    (∀ env p, w.ssid ≠ [] →
      provisionedNotifications (HandleBlufiEvent (.RECV_STA_PASSWD p) env
        (OnProvisioned (some g) (OnProvisioned (some f) w))).2 = [(g, w.ssid, p)]) ∧
    ((OnStateChanged cb w).provisioned_callback_ = w.provisioned_callback_ ∧
      GetState (OnStateChanged cb w) = GetState w) ∧
    ((OnProvisioned cb w).state_changed_callback_ = w.state_changed_callback_ ∧
      GetState (OnProvisioned cb w) = GetState w) := by
  refine ⟨rfl, rfl, ?_, ?_, ?_, ?_, ⟨rfl, rfl⟩, ⟨rfl, rfl⟩⟩
  · intro ops w1 t hno hr
    exact run_stateNotifications_to ops _ w1 t g rfl hno hr
  · intro env
    simp [HandleBlufiEvent, OnStateChanged, notifyState, StopAdvertising,
      stateNotifications_stateChanged, stateNotifications_call, stateNotifications_nil]
  · intro ops w1 t hno hr
    exact run_provisionedNotifications_to ops _ w1 t g rfl hno hr
  · intro env p hz
    have hz2 : (OnProvisioned (some g) (OnProvisioned (some f) w)).ssid ≠ [] := hz
    simp only [HandleBlufiEvent, hz2, ne_eq, not_false_eq_true, if_true, HandleWifiConfig,
      notifyProvisioned, provisionedNotifications_append,
      provisionedNotifications_notifyState]
    simp [OnProvisioned, provisionedNotifications_addSsid,
      provisionedNotifications_provisioned, provisionedNotifications_nil]

/-- A concrete instance of C15: observers `5` then `6` registered for both kinds on a
fresh object, followed by `Start`, `BLE_CONNECT`, SSID "H" and password "s". -/
theorem registration_replaces_witness :
    ∃ w1 t, run [(.Start [65], okEnv), (.Blufi .BLE_CONNECT, okEnv),
        (.Blufi (.RECV_STA_SSID [72]), okEnv), (.Blufi (.RECV_STA_PASSWD [115]), okEnv)]
        (OnStateChanged (some 6) (OnStateChanged (some 5)
          (OnProvisioned (some 6) (OnProvisioned (some 5) fresh)))) = some (w1, t) ∧
      stateNotifications t ≠ [] ∧
      (∀ n ∈ stateNotifications t, n.1 = 6) ∧
      provisionedNotifications t = [(6, [72], [115])] := by
  have h := (registration_replaces (OnProvisioned (some 6) (OnProvisioned (some 5) fresh))
    5 6 none).2.2.1
    [(.Start [65], okEnv), (.Blufi .BLE_CONNECT, okEnv),
      (.Blufi (.RECV_STA_SSID [72]), okEnv), (.Blufi (.RECV_STA_PASSWD [115]), okEnv)]
  refine ⟨_, _, rfl, by decide, ?_, rfl⟩
  refine h _ _ ?_ rfl
  intro x hx c
  simp only [List.mem_cons, List.mem_singleton, List.not_mem_nil, or_false] at hx
  rcases hx with rfl | rfl | rfl | rfl <;> simp

/-! ## C16: a second SSID before the password -/

/-- C16. With observers `f`, `g` registered and `s2` non-empty (whatever `s1` is),
`RECV_STA_SSID(s1)`, `RECV_STA_SSID(s2)`, `RECV_STA_PASSWD(p)` invokes the provisioned
observer exactly once, with `(s2, p)`; neither SSID event changes the state or has any
effect, and the first leaves `s1`, the second `s2` retained. -/
theorem last_ssid_wins (w : World) (s1 s2 p : CppString) (f g : Nat) (e1 e2 e3 : Env)
    (_h1 : s1 ≠ []) (h2 : s2 ≠ [])
    (hf : w.provisioned_callback_ = some f) (hg : w.state_changed_callback_ = some g) :
    observe (run [(.Blufi (.RECV_STA_SSID s1), e1), (.Blufi (.RECV_STA_SSID s2), e2),
        (.Blufi (.RECV_STA_PASSWD p), e3)] w)
      = some (.PROVISIONED, [(g, .PROVISIONING), (g, .PROVISIONED)], [(f, s2, p)]) ∧
    HandleBlufiEvent (.RECV_STA_SSID s1) e1 w = ({ w with ssid := s1 }, []) ∧
    HandleBlufiEvent (.RECV_STA_SSID s2) e2 { w with ssid := s1 }
      = ({ w with ssid := s2 }, []) ∧
    GetState ({ w with ssid := s1 } : World) = GetState w ∧
    GetState ({ w with ssid := s2 } : World) = GetState w := by
  refine ⟨?_, rfl, rfl, rfl, rfl⟩
  simp [observe, run, step, HandleBlufiEvent, HandleWifiConfig, h2, GetState, notifyState,
    notifyProvisioned, hf, hg, stateNotifications_stateChanged, stateNotifications_nil,
    stateNotifications_addSsid, stateNotifications_provisioned,
    provisionedNotifications_stateChanged, provisionedNotifications_nil,
    provisionedNotifications_addSsid, provisionedNotifications_provisioned]

/-- A concrete instance of C16: SSID "H", then SSID "J", then password "s". -/
theorem last_ssid_wins_witness :
    observe (run [(.Blufi (.RECV_STA_SSID [72]), okEnv),
        (.Blufi (.RECV_STA_SSID [74]), okEnv), (.Blufi (.RECV_STA_PASSWD [115]), okEnv)]
        (OnStateChanged (some 1) (OnProvisioned (some 0) fresh)))
      = some (.PROVISIONED, [(1, .PROVISIONING), (1, .PROVISIONED)], [(0, [74], [115])]) :=
  (last_ssid_wins (OnStateChanged (some 1) (OnProvisioned (some 0) fresh))
    [72] [74] [115] 0 1 okEnv okEnv okEnv (by decide) (by decide) rfl rfl).1

/-! ## C17: provisioning in any state -/

/-- C17. In every state, with observers `f`, `g` registered: when an SSID is retained,
`RECV_STA_PASSWD(p)` for any `p`, the empty one included, has exactly the effects notify
`PROVISIONING`, store `(ssid, p)`, invoke the provisioned observer with `(ssid, p)`,
notify `PROVISIONED`, in that order, and leaves the state `PROVISIONED`; when no SSID is
retained it has no effect and changes nothing but the retained password. -/
theorem provisioning_ignores_state (w : World) (env : Env) (p : CppString) (f g : Nat)
    (hf : w.provisioned_callback_ = some f) (hg : w.state_changed_callback_ = some g) :
    (w.ssid ≠ [] →
      (HandleBlufiEvent (.RECV_STA_PASSWD p) env w).2 =
        [.stateChanged g .PROVISIONING, .addSsid w.ssid p, .provisioned f w.ssid p,
          .stateChanged g .PROVISIONED] ∧
      GetState (HandleBlufiEvent (.RECV_STA_PASSWD p) env w).1 = .PROVISIONED) ∧
    (w.ssid = [] →
      HandleBlufiEvent (.RECV_STA_PASSWD p) env w = ({ w with password := p }, []) ∧
      GetState (HandleBlufiEvent (.RECV_STA_PASSWD p) env w).1 = GetState w) := by
  constructor
  · intro h
    simp [HandleBlufiEvent, HandleWifiConfig, h, notifyState, notifyProvisioned, hf, hg,
      GetState]
  · intro h
    simp [HandleBlufiEvent, h, GetState]

/-- A concrete instance of C17: an idle, never started object that retains SSID "H"
receives the empty password. -/
theorem provisioning_ignores_state_witness :
    (HandleBlufiEvent (.RECV_STA_PASSWD []) okEnv
      (HandleBlufiEvent (.RECV_STA_SSID [72]) okEnv
        (OnStateChanged (some 1) (OnProvisioned (some 0) fresh))).1).2 =
      [.stateChanged 1 .PROVISIONING, .addSsid [72] [], .provisioned 0 [72] [],
        .stateChanged 1 .PROVISIONED] ∧
    GetState (HandleBlufiEvent (.RECV_STA_PASSWD []) okEnv
      (HandleBlufiEvent (.RECV_STA_SSID [72]) okEnv
        (OnStateChanged (some 1) (OnProvisioned (some 0) fresh))).1).1 = .PROVISIONED :=
  (provisioning_ignores_state
    (HandleBlufiEvent (.RECV_STA_SSID [72]) okEnv
      (OnStateChanged (some 1) (OnProvisioned (some 0) fresh))).1 okEnv [] 0 1 rfl rfl).1
    (by decide)

end Blufi

namespace CarStatusMonitor

/-! ## C18: decoding a serial status frame -/

/-- C18. For every memory `data` and length `len`: every index `ParseFrame` reads is
below `len`; the status is `{false, false}` unless `len >= 8`, `data[0] = 0xFC`,
`data[3] = 0x01` and `data[7] = 0x0D`, and then `brake_on` says whether `data[4]` is odd
and `seatbelt_on` whether `data[5]` is odd; and two memories that agree at the indices
0, 3, 4, 5 and 7 give the same result. -/
theorem parse_frame_decoding (data : Nat → Fin 256) (len : Nat) :
    (∀ i ∈ (ParseFrame data len).2, i < len) ∧
    (ParseFrame data len).1 =
      (if len ≥ 8 ∧ (data 0).val = 0xFC ∧ (data 3).val = 0x01 ∧ (data 7).val = 0x0D
       then { brake_on := decide ((data 4).val % 2 = 1),
              seatbelt_on := decide ((data 5).val % 2 = 1) }
       else { brake_on := false, seatbelt_on := false }) ∧
    (∀ data2 : Nat → Fin 256, data2 0 = data 0 → data2 3 = data 3 → data2 4 = data 4 →
      data2 5 = data 5 → data2 7 = data 7 → ParseFrame data2 len = ParseFrame data len) := by
  have odd : ∀ x : Nat, decide (x &&& 0x01 ≠ 0) = decide (x % 2 = 1) := by
    intro x
    rw [Nat.and_one_is_mod]
    rcases Nat.mod_two_eq_zero_or_one x with h | h <;> simp [h]
  refine ⟨?_, ?_, ?_⟩
  · intro i hi
    unfold ParseFrame at hi
    simp only [] at hi
    split_ifs at hi with h8 <;> simp at hi <;> omega
  · unfold ParseFrame
    simp only [odd]
    split_ifs <;> simp_all
  · intro data2 h0 h3 h4 h5 h7
    unfold ParseFrame
    simp only [h0, h3, h4, h5, h7]

/-- A concrete instance of C18: the frame FC 00 00 01 01 00 00 0D decodes to brake on,
seatbelt off, reading five bytes, and changing the bytes at indices 1, 2 and 6 changes
nothing. -/
theorem parse_frame_decoding_witness :
    ParseFrame (memoryOf [252, 0, 0, 1, 1, 0, 0, 13]) 8
      = ({ brake_on := true, seatbelt_on := false }, [0, 3, 7, 4, 5]) ∧
    ParseFrame (memoryOf [252, 9, 9, 1, 1, 0, 9, 13]) 8
      = ParseFrame (memoryOf [252, 0, 0, 1, 1, 0, 0, 13]) 8 :=
  ⟨rfl, (parse_frame_decoding (memoryOf [252, 0, 0, 1, 1, 0, 0, 13]) 8).2.2
    (memoryOf [252, 9, 9, 1, 1, 0, 9, 13]) rfl rfl rfl rfl rfl⟩

end CarStatusMonitor
